import Mathlib

/-!
Verification development for the pytmx repository (TMX map loader).

Shallow embedding of:
  * `src/pytmx/mason.py`  — gid decoding, layer-data unpacking, sprite-sheet
    slicing, and the streaming tag-dispatch parser;
  * `src/pytmx/dc.py`     — the document model (`Map` and its query methods);
  * `src/apps/viewer.py`  — the viewer's input handling.

Python `int` is modelled as `Int`/`Nat`, `float` attribute values as `Rat`
(the attribute values exercised here are exact decimals), dictionaries as
association lists, and raised exceptions as `Except` errors.
-/

namespace Pytmx

/-! ### Gid flag decoding (`mason.py`, lines 36-55) -/

/-- Model of `GID_TRANS_FLIPX = 1 << 31` (mason.py line 36). -/
def GID_TRANS_FLIPX : Nat := 1 <<< 31

/-- Model of `GID_TRANS_FLIPY = 1 << 30` (mason.py line 37). -/
def GID_TRANS_FLIPY : Nat := 1 <<< 30

/-- Model of `GID_TRANS_ROT = 1 << 29` (mason.py line 38). -/
def GID_TRANS_ROT : Nat := 1 <<< 29

/-- Model of `TileFlags = namedtuple("TileFlags", ["horizontal", "vertical", "diagonal"])`. -/
structure TileFlags where
  horizontal : Bool
  vertical : Bool
  diagonal : Bool
deriving DecidableEq

/-- Model of `decode_gid(raw_gid)` from mason.py lines 47-55.  Python computes
`raw_gid & ~(GID_TRANS_FLIPX | GID_TRANS_FLIPY | GID_TRANS_ROT)`; on a
non-negative unbounded int this clears bits 29..31, i.e. subtracts the bits
the value shares with the mask (`raw_gid &&& mask`). -/
def decode_gid (raw_gid : Nat) : Nat × TileFlags :=
  let flags : TileFlags :=
    ⟨raw_gid &&& GID_TRANS_FLIPX == GID_TRANS_FLIPX,
     raw_gid &&& GID_TRANS_FLIPY == GID_TRANS_FLIPY,
     raw_gid &&& GID_TRANS_ROT == GID_TRANS_ROT⟩
  let gid := raw_gid - (raw_gid &&& (GID_TRANS_FLIPX ||| GID_TRANS_FLIPY ||| GID_TRANS_ROT))
  (gid, flags)

lemma testBit_base_high {base : Nat} (h : base < 2 ^ 29) {j : Nat} (hj : 29 ≤ j) :
    base.testBit j = false :=
  Nat.testBit_lt_two_pow (lt_of_lt_of_le h (Nat.pow_le_pow_right (by norm_num) hj))

lemma base_and_two_pow {base : Nat} (h : base < 2 ^ 29) {i : Nat} (hi : 29 ≤ i) :
    base &&& 2 ^ i = 0 := by
  rw [Nat.and_two_pow, testBit_base_high h hi]
  simp

lemma lor_and_two_pow {base : Nat} (f : Nat) (h : base < 2 ^ 29) {i : Nat} (hi : 29 ≤ i) :
    (base ||| f) &&& 2 ^ i = f &&& 2 ^ i := by
  rw [Nat.and_distrib_right, base_and_two_pow h hi, Nat.zero_or]

lemma base_and_mask {base : Nat} (h : base < 2 ^ 29) :
    base &&& (2 ^ 31 ||| 2 ^ 30 ||| 2 ^ 29) = 0 := by
  rw [Nat.and_or_distrib_left, Nat.and_or_distrib_left,
    base_and_two_pow h (by norm_num), base_and_two_pow h (by norm_num),
    base_and_two_pow h (by norm_num)]
  rfl

/-- A number below `2 ^ 29` or-ed with a multiple of `2 ^ 29` is their sum. -/
lemma lor_high_eq_add {base : Nat} (t : Nat) (h : base < 2 ^ 29) :
    base ||| 2 ^ 29 * t = 2 ^ 29 * t + base := by
  rw [Nat.lor_comm, ← Nat.mul_add_lt_is_or h t]

lemma lor_and_mask {base : Nat} (f : Nat) (h : base < 2 ^ 29) :
    (base ||| f) &&& (2 ^ 31 ||| 2 ^ 30 ||| 2 ^ 29) = f &&& (2 ^ 31 ||| 2 ^ 30 ||| 2 ^ 29) := by
  rw [Nat.and_distrib_right, base_and_mask h, Nat.zero_or]

lemma decode_gid_split (base f t : Nat) (h : base < 2 ^ 29) (hf : f = 2 ^ 29 * t)
    (b31 b30 b29 : Bool)
    (e31 : (f &&& 2 ^ 31 == 2 ^ 31) = b31)
    (e30 : (f &&& 2 ^ 30 == 2 ^ 30) = b30)
    (e29 : (f &&& 2 ^ 29 == 2 ^ 29) = b29)
    (ef : f &&& (2 ^ 31 ||| 2 ^ 30 ||| 2 ^ 29) = f) :
    decode_gid (base ||| f) = (base, ⟨b31, b30, b29⟩) := by
  have c31 : GID_TRANS_FLIPX = 2 ^ 31 := by decide
  have c30 : GID_TRANS_FLIPY = 2 ^ 30 := by decide
  have c29 : GID_TRANS_ROT = 2 ^ 29 := by decide
  have hadd : base ||| f = f + base := by rw [hf]; exact lor_high_eq_add t h
  have hmask : (base ||| f) &&& (2 ^ 31 ||| 2 ^ 30 ||| 2 ^ 29) = f := by
    rw [lor_and_mask f h, ef]
  have h31 : ((base ||| f) &&& 2 ^ 31 == 2 ^ 31) = b31 := by
    rw [lor_and_two_pow f h (by norm_num), e31]
  have h30 : ((base ||| f) &&& 2 ^ 30 == 2 ^ 30) = b30 := by
    rw [lor_and_two_pow f h (by norm_num), e30]
  have h29 : ((base ||| f) &&& 2 ^ 29 == 2 ^ 29) = b29 := by
    rw [lor_and_two_pow f h (by norm_num), e29]
  have hgid : (base ||| f) - ((base ||| f) &&& (2 ^ 31 ||| 2 ^ 30 ||| 2 ^ 29)) = base := by
    rw [hmask, hadd]
    omega
  simp only [decode_gid, c31, c30, c29]
  rw [Prod.mk.injEq]
  refine ⟨hgid, ?_⟩
  rw [h31, h30, h29]

/-- C1: for any 32-bit raw gid formed as `base_gid | f`, where `base_gid` has
its top three bits clear and `f` is any subset of bits 31/30/29, `decode_gid`
returns exactly `(base_gid, flags)` with `horizontal`/`vertical`/`diagonal`
true iff bit 31/30/29 was set in `f`; in particular a bare `base_gid` decodes
to itself with all flags false. -/
theorem decode_gid_roundtrip (base : Nat) (h : base < 2 ^ 29) (b31 b30 b29 : Bool) :
    decode_gid (base |||
        (cond b31 GID_TRANS_FLIPX 0 ||| cond b30 GID_TRANS_FLIPY 0 |||
          cond b29 GID_TRANS_ROT 0)) =
      (base, ⟨b31, b30, b29⟩) := by
  cases b31 <;> cases b30 <;> cases b29 <;>
    simp only [cond_true, cond_false] <;>
    [exact decode_gid_split base _ 0 h (by decide) _ _ _ (by decide) (by decide) (by decide)
      (by decide);
     exact decode_gid_split base _ 1 h (by decide) _ _ _ (by decide) (by decide) (by decide)
      (by decide);
     exact decode_gid_split base _ 2 h (by decide) _ _ _ (by decide) (by decide) (by decide)
      (by decide);
     exact decode_gid_split base _ 3 h (by decide) _ _ _ (by decide) (by decide) (by decide)
      (by decide);
     exact decode_gid_split base _ 4 h (by decide) _ _ _ (by decide) (by decide) (by decide)
      (by decide);
     exact decode_gid_split base _ 5 h (by decide) _ _ _ (by decide) (by decide) (by decide)
      (by decide);
     exact decode_gid_split base _ 6 h (by decide) _ _ _ (by decide) (by decide) (by decide)
      (by decide);
     exact decode_gid_split base _ 7 h (by decide) _ _ _ (by decide) (by decide) (by decide)
      (by decide)]

/-- Witness for `decode_gid_roundtrip` at `base = 5`, flags (true, false, true). -/
theorem decode_gid_roundtrip_witness :
    (5 : Nat) < 2 ^ 29 ∧
      decode_gid (5 ||| (GID_TRANS_FLIPX ||| 0 ||| GID_TRANS_ROT)) =
        (5, ⟨true, false, true⟩) :=
  ⟨by decide, decode_gid_roundtrip 5 (by decide) true false true⟩

/-! ### Sprite-sheet slicing (`mason.py`, lines 122-126) -/

/-- Python `range(start, stop, step)` for a positive `step`: the ascending
arithmetic progression from `start` with difference `step`, strictly below
`stop`; its length is `max 0 ((stop - start + step - 1) // step)`.  Python
`range` raises for `step <= 0`; the call sites modelled in this development
guard the step, and this model returns `[]` there. -/
def pyRange (start stop step : Int) : List Int :=
  if 0 < step then
    (List.range ((stop - start + step - 1).toNat / step.toNat)).map
      (fun i : Nat => start + step * (i : Int))
  else []

/-- Model of `itertools.product(l1, l2)` of two ranges: all pairs, first component
outermost (row-major). -/
def pyProduct (l1 l2 : List Int) : List (Int × Int) :=
  match l1 with
  | [] => []
  | y :: ys => l2.map (fun x => (y, x)) ++ pyProduct ys l2

/-- Model of `iter_image_tiles(width, height, tilewidth, tileheight, margin, spacing)`
from mason.py lines 122-126:
`product(range(margin, height + margin - tileheight + 1, tileheight + spacing),
         range(margin, width + margin - tilewidth + 1, tilewidth + spacing))`,
yielding `(y, x)` pairs. -/
def iter_image_tiles (width height tilewidth tileheight margin spacing : Int) :
    List (Int × Int) :=
  pyProduct
    (pyRange margin (height + margin - tileheight + 1) (tileheight + spacing))
    (pyRange margin (width + margin - tilewidth + 1) (tilewidth + spacing))

lemma mem_pyProduct {l1 l2 : List Int} {a b : Int} :
    (a, b) ∈ pyProduct l1 l2 ↔ a ∈ l1 ∧ b ∈ l2 := by
  induction l1 with
  | nil => simp [pyProduct]
  | cons y ys ih =>
    simp only [pyProduct, List.mem_append, List.mem_map, List.mem_cons, ih]
    constructor
    · rintro (⟨x, hx, he⟩ | ⟨h1, h2⟩)
      · cases he
        exact ⟨Or.inl rfl, hx⟩
      · exact ⟨Or.inr h1, h2⟩
    · rintro ⟨rfl | h1, h2⟩
      · exact Or.inl ⟨b, h2, rfl⟩
      · exact Or.inr ⟨h1, h2⟩

lemma mem_pyRange {start stop step v : Int} (hs : 0 < step) :
    v ∈ pyRange start stop step ↔ ∃ i : Nat, v = start + step * i ∧ v < stop := by
  obtain ⟨k, hk⟩ : ∃ k : Nat, step = (k : Int) := ⟨step.toNat, by omega⟩
  have hk0 : 0 < k := by omega
  subst hk
  simp only [pyRange, if_pos hs, List.mem_map, List.mem_range]
  have htn : ((k : Int)).toNat = k := by omega
  rw [htn]
  constructor
  · rintro ⟨i, hi, rfl⟩
    refine ⟨i, rfl, ?_⟩
    have h2 : (i + 1) * k ≤ (stop - start + (k : Int) - 1).toNat :=
      (Nat.le_div_iff_mul_le hk0).mp (Nat.succ_le_of_lt hi)
    have h2c : (((i + 1) * k : Nat) : Int) ≤ ((stop - start + (k : Int) - 1).toNat : Int) :=
      Nat.cast_le.mpr h2
    have hmc : (((i + 1) * k : Nat) : Int) = (k : Int) * (i : Int) + (k : Int) := by
      push_cast
      ring
    rw [hmc] at h2c
    have hP0 : (0 : Int) ≤ (k : Int) * (i : Int) := by positivity
    generalize hP : (k : Int) * (i : Int) = P at h2c hP0 ⊢
    omega
  · rintro ⟨i, rfl, hlt⟩
    refine ⟨i, ?_, rfl⟩
    have hmc : (((i + 1) * k : Nat) : Int) = (k : Int) * (i : Int) + (k : Int) := by
      push_cast
      ring
    have hIc : (k : Int) * (i : Int) + (k : Int) ≤ stop - start + (k : Int) - 1 := by
      generalize hP : (k : Int) * (i : Int) = P at hlt ⊢
      omega
    have hcast : (((i + 1) * k : Nat) : Int) ≤ stop - start + (k : Int) - 1 := by
      rw [hmc]
      exact hIc
    have key : (i + 1) * k ≤ (stop - start + (k : Int) - 1).toNat := by
      generalize hm : (i + 1) * k = n at hcast ⊢
      omega
    exact Nat.lt_of_succ_le ((Nat.le_div_iff_mul_le hk0).mpr key)

lemma mem_iter_image_tiles {W H tw th m s y x : Int}
    (hy : 0 < th + s) (hx : 0 < tw + s) :
    (y, x) ∈ iter_image_tiles W H tw th m s ↔
      ((∃ i : Nat, y = m + (th + s) * i) ∧ y + th ≤ H + m) ∧
      ((∃ j : Nat, x = m + (tw + s) * j) ∧ x + tw ≤ W + m) := by
  rw [iter_image_tiles, mem_pyProduct, mem_pyRange hy, mem_pyRange hx]
  constructor
  · rintro ⟨⟨i, hi, hlty⟩, ⟨j, hj, hltx⟩⟩
    exact ⟨⟨⟨i, hi⟩, by omega⟩, ⟨⟨j, hj⟩, by omega⟩⟩
  · rintro ⟨⟨⟨i, hi⟩, hby⟩, ⟨⟨j, hj⟩, hbx⟩⟩
    exact ⟨⟨i, hi, by omega⟩, ⟨j, hj, by omega⟩⟩

/-- C2 counterexample: for the sheet of width 130, height 64, tile size 32x32,
margin 1, spacing 2 the slicer enumerates 3 origins, not the claimed 6 (2 rows
of 3 columns); and the claimed general bound `y + th <= H` is also wrong: with
`W = H = 2`, `tw = th = 2`, `m = 1`, `s = 0` the code enumerates origin
`(y, x) = (1, 1)` although `1 + 2 <= 2` fails (the code's bound is
`y + th <= H + m`). -/
theorem iter_image_tiles_claim_false :
    (iter_image_tiles 130 64 32 32 1 2).length = 3 ∧
      iter_image_tiles 2 2 2 2 1 0 = [(1, 1)] ∧ ¬((1 : Int) + 2 ≤ 2) :=
  ⟨by decide, by decide, by decide⟩

/-- C2 (amended): for a sheet of width 130, height 64, tile size 32x32,
margin 1, spacing 2, the slicing enumeration produces exactly 3 origins — 1
row of 3 columns in row-major order (outer loop y, inner loop x), the first
origin at (1, 1) and the second at x = 35, y = 1; and for any W, H, tw, th,
m, s (with positive steps th + s and tw + s) the enumerated origins are
exactly the pairs with `y ∈ {m, m+(th+s), m+2(th+s), ...}` while
`y + th ≤ H + m` and `x ∈ {m, m+(tw+s), ...}` while `x + tw ≤ W + m`. -/
theorem iter_image_tiles_spec :
    iter_image_tiles 130 64 32 32 1 2 = [(1, 1), (1, 35), (1, 69)] ∧
      ∀ W H tw th m s y x : Int, 0 < th + s → 0 < tw + s →
        ((y, x) ∈ iter_image_tiles W H tw th m s ↔
          ((∃ i : Nat, y = m + (th + s) * i) ∧ y + th ≤ H + m) ∧
          ((∃ j : Nat, x = m + (tw + s) * j) ∧ x + tw ≤ W + m)) :=
  ⟨by decide, fun _ _ _ _ _ _ _ _ hy hx => mem_iter_image_tiles hy hx⟩

/-- Witness for `iter_image_tiles_spec`: the second origin of the 130x64
example, `(y, x) = (1, 35)`, is enumerated. -/
theorem iter_image_tiles_spec_witness :
    ((1 : Int), (35 : Int)) ∈ iter_image_tiles 130 64 32 32 1 2 :=
  (iter_image_tiles_spec.2 130 64 32 32 1 2 1 35 (by decide) (by decide)).mpr
    ⟨⟨⟨0, by decide⟩, by decide⟩, ⟨⟨1, by decide⟩, by decide⟩⟩

/-! ### Document model (`dc.py`) -/

/-- Image handles produced by `default_image_loader` (mason.py lines 58-64):
the factory returns the tuple `(filename, rect, flags)` unevaluated. -/
structure ImgVal where
  filename : String
  rect : Option (Int × Int × Int × Int)
  flags : Option TileFlags
deriving DecidableEq

/-- Model of `Tile` dataclass (dc.py lines 54-62).  The `animation` field is never set
or read anywhere in the repository and is omitted. -/
structure Tile where
  id : Option Int := none
  gid : Option Int := none
  type : Option String := none
  terrain : Option String := none
  image : Option ImgVal := none
  properties : Option (List (String × String)) := none
deriving DecidableEq

/-- Model of `Image` dataclass (dc.py lines 65-70). -/
structure Image where
  source : Option String := none
  width : Option Int := none
  height : Option Int := none
  trans : Option String := none
deriving DecidableEq

/-- The value held by `TileLayer.data` over its lifetime: `None` (initial
value, and the result of decoding a `Data` element with no encoding), a flat
gid list (after the `Layer.Data` reduction), or a row-major grid of resolved
tiles (after the root `Map` reduction; a `none` cell is the gid-0 "no tile"
cache entry). -/
inductive TLData where
  | none : TLData
  | gids : List Int → TLData
  | tiles : List (List (Option Tile)) → TLData
deriving DecidableEq

/-- Model of `TileLayer` dataclass (dc.py lines 73-87).  `properties` is assigned
dynamically by the `Layer.Properties` reducer in Python and is modelled as a
field defaulting to the empty map.  The `data` start-tag attribute (never
present in a TMX document) is modelled as absent. -/
structure TileLayer where
  name : Option String := none
  opacity : Rat := 1
  visible : Bool := true
  tintcolor : Option String := none
  offsetx : Option String := none
  offsety : Option String := none
  data : TLData := .none
  properties : List (String × String) := []
deriving DecidableEq

/-- Model of `Point` dataclass (dc.py lines 16-19). -/
structure Point where
  x : Option Int
  y : Option Int
deriving DecidableEq

/-- Model of `Text` dataclass (dc.py lines 22-34); every field comes from an untyped
attribute read, hence `Option String`. -/
structure TextObj where
  fontfamily : Option String := none
  pixelsize : Option String := none
  wrap : Option String := none
  color : Option String := none
  bold : Option String := none
  italic : Option String := none
  underline : Option String := none
  strikeout : Option String := none
  kerning : Option String := none
  halign : Option String := none
  valign : Option String := none
deriving DecidableEq

/-- Model of `Polygon` dataclass (dc.py lines 137-139): a list of float tuples parsed
from the `points` attribute (tuple arity is whatever the split produced). -/
structure Polygon where
  points : List (List Rat)
deriving DecidableEq

/-- Model of `Polyline` dataclass (dc.py lines 142-144); the builder stores the raw
attribute string (mason.py line 242). -/
structure Polyline where
  points : Option String
deriving DecidableEq

/-- The shape objects appended to `Object.shapes` by the `Object.*` reducers
(`Circle` is the zero-field ellipse marker from dc.py lines 49-51). -/
inductive Shape where
  | circle : Shape
  | point : Point → Shape
  | polygon : Polygon → Shape
  | polyline : Polyline → Shape
  | text : TextObj → Shape
deriving DecidableEq

/-- Model of `Object` dataclass (dc.py lines 147-160).  `properties` is assigned
dynamically by the `Object.Properties` reducer and modelled as a field. -/
structure Object where
  name : Option String := none
  type : Option String := none
  x : Option Rat := none
  y : Option Rat := none
  width : Option Rat := none
  height : Option Rat := none
  rotation : Option Rat := none
  gid : Int := 0
  visible : Bool := true
  image : Option ImgVal := none
  shapes : List Shape := []
  properties : List (String × String) := []
deriving DecidableEq

/-- Model of `ObjectGroup` dataclass (dc.py lines 90-104). -/
structure ObjectGroup where
  name : Option String := none
  color : Option String := none
  opacity : Rat := 1
  visible : Bool := true
  tintcolor : Option String := none
  offsetx : Option Rat := none
  offsety : Option Rat := none
  draworder : Option String := none
  objects : List Object := []
deriving DecidableEq

/-- Model of `ImageLayer` dataclass (dc.py lines 170-174); `visible` comes from an
untyped attribute read (mason.py line 179) and `image` is set by the
`Imagelayer.Image` reducer. -/
structure ImageLayer where
  name : Option String := none
  visible : Option String := none
  image : Option Image := none
deriving DecidableEq

mutual

/-- The heterogeneous layer values stored in `Map.layers`. -/
inductive Layer where
  | tile : TileLayer → Layer
  | objgroup : ObjectGroup → Layer
  | group : Group → Layer
  | image : ImageLayer → Layer

/-- Model of `Group` dataclass (dc.py lines 107-116): name, opacity, visible,
tintcolor, offsetx, offsety, nested layers. -/
inductive Group where
  | mk : Option String → Rat → Bool → Option String → Option String → Option String →
      List Layer → Group

end

/-- The `visible` field of a `Group`. -/
def Group.visible : Group → Bool
  | .mk _ _ v _ _ _ _ => v

/-- The nested `layers` list of a `Group`. -/
def Group.layers : Group → List Layer
  | .mk _ _ _ _ _ _ ls => ls

/-- Replace the nested `layers` list of a `Group`. -/
def Group.withLayers : Group → List Layer → Group
  | .mk a b c d e f _, ls => .mk a b c d e f ls

/-- Model of `Tileset` dataclass (dc.py lines 119-134); `tilecount`, `columns` and
`objectalignment` come from untyped attribute reads (mason.py lines 286-288). -/
structure Tileset where
  firstgid : Int := 0
  source : Option String := none
  name : Option String := none
  tilewidth : Option Int := none
  tileheight : Option Int := none
  spacing : Int := 0
  margin : Int := 0
  tilecount : Option String := none
  columns : Option String := none
  objectalignment : Option String := none
  orientation : Option String := none
  images : List ImgVal := []
  tiles : List Tile := []
  properties : List (String × String) := []
deriving DecidableEq

/-- Model of `Map` dataclass (dc.py lines 177-201). -/
structure Map where
  version : Option String := none
  tiledversion : Option String := none
  orientation : Option String := none
  renderorder : Option String := none
  compressionlevel : Option String := none
  width : Option Int := none
  height : Option Int := none
  tilewidth : Option Int := none
  tileheight : Option Int := none
  hexsidelength : Option Int := none
  staggeraxis : Option Int := none
  staggerindex : Option Int := none
  background_color : Option String := none
  infinite : Bool := false
  filename : Option String := none
  layers : List Layer := []
  tilesets : List Tileset := []
  images : List ImgVal := []
  properties : List (String × String) := []

/-- Model of `MapCoordinates = namedtuple("MapCoordinates", ["x", "y", "layer"])`. -/
structure MapCoordinates where
  x : Int
  y : Int
  layer : Nat
deriving DecidableEq

/-! ### Python values and exceptions -/

/-- A caller-supplied Python value for the "easy API": an int, or a
non-numeric value (represented by a string) to express the spec's
"non-numeric input" cases. -/
inductive PyVal where
  | int : Int → PyVal
  | str : String → PyVal
deriving DecidableEq

/-- A cell value as returned by `layer.data[y][x]`: an int (flat gid stage)
or a resolved tile entry (grid stage). -/
inductive Cell where
  | int : Int → Cell
  | tile : Option Tile → Cell
deriving DecidableEq

/-- Python exceptions raised by the modelled code.  Constructors that elide a
formatted message are documented with the exact `raise` they model. -/
inductive PyErr where
  /-- dc.py line 223: `ValueError` "Tile coordinates and layers must be non-negative, were (x, y), layer=..." with the three offending values. -/
  | nonNegError : PyVal → PyVal → PyVal → PyErr
  /-- dc.py line 229: `ValueError` "Layer not found: ..." with the offending index. -/
  | layerNotFound : Int → PyErr
  /-- dc.py line 233: `ValueError` "Tile coordinates (x,y) in layer ... are invalid" (the layer repr is elided). -/
  | coordsInvalid : PyVal → PyVal → PyErr
  /-- dc.py line 214: `TypeError` "GIDs must be expressed as a number.  Got: ..." with the offending value. -/
  | gidTypeError : PyVal → PyErr
  /-- dc.py line 216: `ValueError` "GID not found: ..." with the offending gid. -/
  | gidNotFound : Int → PyErr
  /-- An uncaught `TypeError`; the message names the failing operation. -/
  | typeError : String → PyErr
  /-- An uncaught `AttributeError` on the named attribute. -/
  | attributeError : String → PyErr
  /-- An uncaught `NameError` on the named undefined identifier. -/
  | nameError : String → PyErr
  /-- An uncaught `KeyError` (dict lookup miss); the key is elided. -/
  | keyError : PyErr
  /-- A failed bare `assert`. -/
  | assertionError : PyErr
  /-- A `ValueError` raised with the given message. -/
  | valueError : String → PyErr
  /-- mason.py lines 76 and 83: a bare `Exception` with the given message. -/
  | exception : String → PyErr
  /-- Model of `struct.error`: unpacking a trailing chunk shorter than 4 bytes. -/
  | structError : PyErr
  /-- Model of `binascii.Error` from `b64decode` (incorrect padding). -/
  | binasciiError : PyErr
  /-- The parsed file does not exist in the modelled file system. -/
  | fileNotFound : String → PyErr
  /-- Model of `MasonException` (mason.py lines 295-297). -/
  | masonError : String → PyErr
  /-- Model artifact: recursion fuel exhausted (no Python counterpart). -/
  | outOfFuel : PyErr
deriving DecidableEq

/-- Python list indexing `l[i]` with negative-index wrap-around; `none` is
`IndexError`. -/
def pyIndex? {α : Type} (l : List α) (i : Int) : Option α :=
  if 0 ≤ i then l[i.toNat]?
  else if 0 ≤ (l.length : Int) + i then l[((l.length : Int) + i).toNat]?
  else none

/-! ### Map query methods (`dc.py`, lines 204-242 and 317-327) -/

/-- Model of `Map.get_tile_gid(x, y, layer)` (dc.py lines 218-233).  The first `try`
converts any `AssertionError`/`TypeError` raised by
`assert x >= 0 and y >= 0 and layer >= 0` into the "non-negative"
`ValueError`; the second converts `IndexError` on `self.layers[layer]` into
"Layer not found"; the third catches only `IndexError` from
`layer.data[y][x]`, so a `TypeError` (data is `None`, or a flat int row) and
an `AttributeError` (a layer kind without a `data` attribute) propagate
unchanged. -/
def Map.get_tile_gid (m : Map) (x y layer : PyVal) : Except PyErr Cell :=
  match x, y, layer with
  | .int a, .int b, .int c =>
    if 0 ≤ a ∧ 0 ≤ b ∧ 0 ≤ c then
      match m.layers[c.toNat]? with
      | Option.none => .error (.layerNotFound c)
      | some (Layer.tile tl) =>
        match tl.data with
        | .none => .error (.typeError "NoneType is not subscriptable")
        | .gids l =>
          match l[b.toNat]? with
          | Option.none => .error (.coordsInvalid x y)
          | some _ => .error (.typeError "int is not subscriptable")
        | .tiles rows =>
          match rows[b.toNat]? with
          | Option.none => .error (.coordsInvalid x y)
          | some row =>
            match row[a.toNat]? with
            | Option.none => .error (.coordsInvalid x y)
            | some cell => .ok (.tile cell)
      | some _ => .error (.attributeError "data")
    else .error (.nonNegError x y layer)
  | _, _, _ => .error (.nonNegError x y layer)

/-- Model of `Map.get_tile_image_by_gid(gid)` (dc.py lines 209-216): `self.images[gid]`
with `TypeError` re-raised as the "GIDs must be expressed as a number" error
and `IndexError` re-raised as "GID not found".  Python list indexing wraps
negative indices, so only a gid below `-len(images)` or at or above
`len(images)` raises `IndexError`. -/
def Map.get_tile_image_by_gid (m : Map) (gid : PyVal) : Except PyErr ImgVal :=
  match gid with
  | .str _ => .error (.gidTypeError gid)
  | .int n =>
    match pyIndex? m.images n with
    | some img => .ok img
    | Option.none => .error (.gidNotFound n)

/-- Truthiness of a layer's `visible` attribute, as evaluated by the left
operand of `l.visible and isinstance(l, TiledTileLayer)` (dc.py line 326). -/
def Layer.visibleTruthy : Layer → Bool
  | .tile tl => tl.visible
  | .objgroup og => og.visible
  | .group g => g.visible
  | .image il =>
    match il.visible with
    | Option.none => false
    | some s => s != ""

/-- Model of `Map.visible_tile_layers` (dc.py lines 317-327): the generator
`(i for (i, l) in enumerate(self.layers) if l.visible and isinstance(l, TiledTileLayer))`.
`TiledTileLayer` is an undefined name in dc.py (this repository's class is
`TileLayer`), so evaluating the filter on the first layer whose `visible` is
truthy raises `NameError`; a layer with falsy `visible` short-circuits the
`and` and is skipped, so a successful evaluation produces no indices. -/
def Map.visible_tile_layers (m : Map) : Except PyErr (List Nat) :=
  go m.layers
where
  go : List Layer → Except PyErr (List Nat)
    | [] => .ok []
    | l :: ls => if l.visibleTruthy then .error (.nameError "TiledTileLayer") else go ls

/-- Model of `Map.get_tile_locations_by_gid(gid)` (dc.py lines 235-242), fully
materialized.  Each index produced by `visible_tile_layers` would make the
loop body evaluate `self.layers[l].iter_data()`, an attribute no layer class
defines, raising `AttributeError`; when `visible_tile_layers` succeeds it
produced no indices and the generator yields nothing. -/
def Map.get_tile_locations_by_gid (m : Map) (gid : Int) : Except PyErr (List MapCoordinates) :=
  match m.visible_tile_layers with
  | .error e => .error e
  | .ok [] => .ok []
  | .ok (_ :: _) => .error (.attributeError "iter_data")

/-! ### Viewer input handling (`apps/viewer.py`, lines 124-135) -/

/-- The pygame events drained by `handle_input`; `other` covers any event
type matching none of the `if` arms. -/
inductive PgEvent where
  | quit : PgEvent
  | keydown : Int → PgEvent
  | videoresize : Int → Int → PgEvent
  | other : Int → PgEvent
deriving DecidableEq

/-- Model of `pygame.K_ESCAPE`. -/
def K_ESCAPE : Int := 27

/-- The `SimpleTest` fields touched by `handle_input`. -/
structure SimpleTest where
  running : Bool
  dirty : Bool
deriving DecidableEq

/-- The loop body of `SimpleTest.handle_input` (viewer.py lines 125-135) for
one event: QUIT clears `running`; KEYDOWN clears `running` whether or not the
key is `K_ESCAPE` (both branches assign `self.running = False`); VIDEORESIZE
sets `dirty`; any other event type is ignored. -/
def handleEvent (s : SimpleTest) (e : PgEvent) : SimpleTest :=
  match e with
  | .quit => { s with running := false }
  | .keydown key =>
    if key == K_ESCAPE then { s with running := false } else { s with running := false }
  | .videoresize _ _ => { s with dirty := true }
  | .other _ => s

/-- Model of `SimpleTest.handle_input`: `for event in pygame.event.get(): ...`, i.e. a
fold of the body over the drained event queue. -/
def handle_input (s : SimpleTest) (events : List PgEvent) : SimpleTest :=
  events.foldl handleEvent s

/-- Events that clear the run flag: window close, or any key press. -/
def PgEvent.stops : PgEvent → Bool
  | .quit => true
  | .keydown _ => true
  | _ => false

lemma handleEvent_running (s : SimpleTest) (e : PgEvent) :
    (handleEvent s e).running = (s.running && !e.stops) := by
  cases e with
  | quit => simp [handleEvent, PgEvent.stops]
  | keydown k =>
    rw [handleEvent]
    split <;> simp [PgEvent.stops]
  | videoresize w h => simp [handleEvent, PgEvent.stops]
  | other t => simp [handleEvent, PgEvent.stops]

lemma handle_input_running (s : SimpleTest) (events : List PgEvent) :
    (handle_input s events).running = (s.running && events.all (fun e => !e.stops)) := by
  induction events generalizing s with
  | nil => simp [handle_input]
  | cons e es ih =>
    have step : handle_input s (e :: es) = handle_input (handleEvent s e) es := rfl
    rw [step, ih, handleEvent_running, List.all_cons, Bool.and_assoc]

/-- C9: after `handle_input` drains the event queue, the run flag is false
whenever the queue held a window-close (QUIT) event or any key-down event
(escape or not), so the `run` loop's `while self.running` test stops it; a
queue of resize events alone leaves the flag unchanged, so it never stops the
loop by itself. -/
theorem handle_input_stops (s : SimpleTest) (events : List PgEvent) :
    ((∃ e ∈ events, e = PgEvent.quit ∨ ∃ k, e = PgEvent.keydown k) →
      (handle_input s events).running = false) ∧
    ((∀ e ∈ events, ∃ w h, e = PgEvent.videoresize w h) →
      (handle_input s events).running = s.running) := by
  constructor
  · rintro ⟨e, he, hstop⟩
    rw [handle_input_running]
    have hfalse : events.all (fun e => !e.stops) = false := by
      apply List.all_eq_false.mpr
      refine ⟨e, he, ?_⟩
      rcases hstop with rfl | ⟨k, rfl⟩ <;> simp [PgEvent.stops]
    rw [hfalse, Bool.and_false]
  · intro hall
    rw [handle_input_running]
    have htrue : events.all (fun e => !e.stops) = true := by
      apply List.all_eq_true.mpr
      intro e he
      obtain ⟨w, h, rfl⟩ := hall e he
      simp [PgEvent.stops]
    rw [htrue, Bool.and_true]

/-- Witness for `handle_input_stops`: a queue with a non-escape key press
stops the loop; a queue with only a resize event leaves it running. -/
theorem handle_input_stops_witness :
    (handle_input ⟨true, false⟩ [PgEvent.videoresize 10 10, PgEvent.keydown 5]).running = false ∧
      (handle_input ⟨true, false⟩ [PgEvent.videoresize 10 10]).running = true :=
  ⟨(handle_input_stops ⟨true, false⟩ _).1 ⟨PgEvent.keydown 5, by simp, Or.inr ⟨5, rfl⟩⟩,
   (handle_input_stops ⟨true, false⟩ _).2 (by
      intro e he
      simp only [List.mem_singleton] at he
      exact ⟨10, 10, he⟩)⟩

/-! ### Parser helpers (`mason.py`) -/

/-- Model of `str.title()` for a single alphabetic word (every tag name in a TMX
document is one): upper-case the first character, lower-case the rest. -/
def pyTitle (s : String) : String :=
  match s.toList with
  | [] => ""
  | c :: cs => String.mk (c.toUpper :: cs.map Char.toLower)

/-- Strip surrounding whitespace from a character list (the effect of
`str.strip()` / `String.trim`). -/
def charsTrim (cs : List Char) : List Char :=
  ((cs.dropWhile Char.isWhitespace).reverse.dropWhile Char.isWhitespace).reverse

/-- Split on a separator character, keeping empty pieces (Python
`s.split(",")`; `"".split(",")` is `[""]`). -/
def splitOnCharAux (sep : Char) : List Char → List Char → List String
  | [], acc => [String.mk acc.reverse]
  | c :: cs, acc =>
    if c = sep then String.mk acc.reverse :: splitOnCharAux sep cs []
    else splitOnCharAux sep cs (c :: acc)

/-- Python `s.split(sep)` for a one-character separator. -/
def splitOnChar (sep : Char) (s : String) : List String :=
  splitOnCharAux sep s.data []

/-- Python `s.split()` (no argument): split on whitespace runs, dropping
empty pieces. -/
def pyStrSplitAux : List Char → List Char → List String
  | [], [] => []
  | [], acc => [String.mk acc.reverse]
  | c :: cs, acc =>
    if c.isWhitespace then
      if acc.isEmpty then pyStrSplitAux cs []
      else String.mk acc.reverse :: pyStrSplitAux cs []
    else pyStrSplitAux cs (c :: acc)

/-- Python `s.split()`. -/
def pyStrSplit (s : String) : List String :=
  pyStrSplitAux s.data []

/-- The value of a run of decimal digits (callers check `isDigit`). -/
def digitsNat (cs : List Char) : Nat :=
  cs.foldl (fun a c => a * 10 + (c.toNat - 48)) 0

/-- Python `int(s)` on a decimal string: surrounding whitespace stripped,
optional sign, digits; `none` models the `ValueError` raise. -/
def pyInt? (s : String) : Option Int :=
  match charsTrim s.data with
  | '-' :: ds =>
    if !ds.isEmpty && ds.all Char.isDigit then some (-(digitsNat ds : Int)) else Option.none
  | '+' :: ds =>
    if !ds.isEmpty && ds.all Char.isDigit then some (digitsNat ds : Int) else Option.none
  | ds =>
    if !ds.isEmpty && ds.all Char.isDigit then some (digitsNat ds : Int) else Option.none

/-- The unsigned part of Python `float(s)`: digits, optionally followed by a
point and more digits. -/
def pyFloatAbs (cs : List Char) : Option Rat :=
  let ip := cs.takeWhile Char.isDigit
  let rest := cs.dropWhile Char.isDigit
  match rest with
  | [] =>
    if ip.isEmpty then Option.none
    else some (digitsNat ip : Rat)
  | '.' :: fp =>
    if fp.all Char.isDigit && !(ip.isEmpty && fp.isEmpty) then
      some ((digitsNat ip : Rat) + (digitsNat fp : Rat) / (10 : Rat) ^ fp.length)
    else Option.none
  | _ => Option.none

/-- Python `float(s)` on a plain decimal literal (the only float syntax TMX
attributes use), modelled exactly as a rational; `none` models the
`ValueError` raise. -/
def pyFloat? (s : String) : Option Rat :=
  match charsTrim s.data with
  | '-' :: u => (pyFloatAbs u).map (fun q => -q)
  | '+' :: u => pyFloatAbs u
  | u => pyFloatAbs u

/-- Model of `os.path.dirname` for the plain relative POSIX paths used here. -/
def dirname (p : String) : String :=
  if p.toList.contains '/' then
    String.mk ((p.toList.reverse.dropWhile (fun c => c ≠ '/')).drop 1).reverse
  else ""

/-- Model of `os.path.join(folder, name)` for the relative paths used here. -/
def joinPath (folder name : String) : String :=
  if folder == "" then name else folder ++ "/" ++ name

/-- Python truthiness of an optional string (`None` and `""` are falsy). -/
def truthyS : Option String → Bool
  | Option.none => false
  | some s => s != ""

/-- Python truthiness of an optional int (`None` and `0` are falsy). -/
def truthyI : Option Int → Bool
  | Option.none => false
  | some n => n != 0

/-- Python truthiness of an optional float (`None` and `0.0` are falsy). -/
def truthyF : Option Rat → Bool
  | Option.none => false
  | some q => q != 0

/-- XML attribute dictionaries: association lists with first-match lookup. -/
abbrev Attrib := List (String × String)

/-- Model of `d.get(key)` on an attribute dict. -/
def alookup (a : Attrib) (k : String) : Option String :=
  (a.find? (fun p => p.1 == k)).map (fun p => p.2)

/-- Model of `get(key)` from `getdefault` (mason.py lines 129-139): untyped read,
absent key → the `None` default. -/
def getS (a : Attrib) (k : String) : Option String :=
  alookup a k

/-- Model of `get(key, int)`: absent → `None`; present → Python `int(...)`, whose
`ValueError` propagates. -/
def getI (a : Attrib) (k : String) (d : Option Int) : Except PyErr (Option Int) :=
  match alookup a k with
  | Option.none => .ok d
  | some v =>
    match pyInt? v with
    | some n => .ok (some n)
    | Option.none => .error (.valueError ("invalid literal for int: " ++ v))

/-- Model of `get(key, int, d)` with an int default. -/
def getID (a : Attrib) (k : String) (d : Int) : Except PyErr Int :=
  match alookup a k with
  | Option.none => .ok d
  | some v =>
    match pyInt? v with
    | some n => .ok n
    | Option.none => .error (.valueError ("invalid literal for int: " ++ v))

/-- Model of `get(key, float)`: absent → `None`; present → Python `float(...)`. -/
def getF (a : Attrib) (k : String) : Except PyErr (Option Rat) :=
  match alookup a k with
  | Option.none => .ok Option.none
  | some v =>
    match pyFloat? v with
    | some q => .ok (some q)
    | Option.none => .error (.valueError ("could not convert string to float: " ++ v))

/-- Model of `get(key, float, d)` with a float default (opacity). -/
def getFD (a : Attrib) (k : String) (d : Rat) : Except PyErr Rat :=
  match alookup a k with
  | Option.none => .ok d
  | some v =>
    match pyFloat? v with
    | some q => .ok q
    | Option.none => .error (.valueError ("could not convert string to float: " ++ v))

/-- Model of `get(key, bool, d)`: Python `bool(str)` is true exactly for a non-empty
string (so the literal "0" coerces to true); it never raises. -/
def getB (a : Attrib) (k : String) (d : Bool) : Bool :=
  match alookup a k with
  | Option.none => d
  | some v => v != ""

/-- Model of `attrib[key]`: a mandatory read; a miss raises `KeyError`. -/
def aindex (a : Attrib) (k : String) : Except PyErr String :=
  match alookup a k with
  | Option.none => .error .keyError
  | some v => .ok v

/-! ### Layer-data decoding (`mason.py`, lines 67-88) -/

/-- The base64 alphabet value of a character. -/
def b64val (c : Char) : Option Nat :=
  if 'A' ≤ c ∧ c ≤ 'Z' then some (c.toNat - 65)
  else if 'a' ≤ c ∧ c ≤ 'z' then some (c.toNat - 71)
  else if '0' ≤ c ∧ c ≤ '9' then some (c.toNat + 4)
  else if c = '+' then some 62
  else if c = '/' then some 63
  else Option.none

/-- Decode a run of 6-bit base64 values to bytes (a trailing pair gives one
byte, a trailing triple two bytes). -/
def b64chunks : List Nat → List Nat
  | a :: b :: c :: d :: rest =>
    (a * 4 + b / 16) :: (b % 16 * 16 + c / 4) :: (c % 4 * 64 + d) :: b64chunks rest
  | [a, b] => [a * 4 + b / 16]
  | [a, b, c] => [a * 4 + b / 16, b % 16 * 16 + c / 4]
  | _ => []

/-- CPython `base64.b64decode(s)` (validate false) on the inputs exercised
here: characters outside the alphabet are discarded, decoding stops at the
first `=`, and the count of data plus padding characters must be a multiple
of four with at least two data characters in a trailing group (otherwise
`binascii.Error`). -/
def b64decode (s : String) : Except PyErr (List Nat) :=
  let valid := s.toList.filter (fun c => (b64val c).isSome || c == '=')
  let ds := valid.takeWhile (fun c => c ≠ '=')
  let pads := (valid.drop ds.length).length
  if (ds.length + pads) % 4 == 0 && ds.length % 4 != 1 then
    .ok (b64chunks (ds.filterMap b64val))
  else .error .binasciiError

/-- The compression boundary: the behaviour of `gzip.decompress` and
`zlib.decompress` (Python standard library, outside this repository). -/
structure Boundary where
  gzip : List Nat → Except PyErr (List Nat)
  zlib : List Nat → Except PyErr (List Nat)

/-- Group `data` into the 4-byte slices `data[i:i+4]` and unpack each with
`struct.Struct("<L")` (little-endian unsigned 32-bit); a short trailing
slice raises `struct.error`. -/
def unpackLE : List Nat → Except PyErr (List Int)
  | [] => .ok []
  | b0 :: b1 :: b2 :: b3 :: rest =>
    (unpackLE rest).map
      (fun l => ((b0 + 256 * b1 + 65536 * b2 + 16777216 * b3 : Nat) : Int) :: l)
  | _ => .error .structError

/-- Model of `unpack_gids(text, encoding, compression)` (mason.py lines 67-83).
`text` is `element.text` and may be `None`: base64-decoding `None` raises
`TypeError`, and `None.split` raises `AttributeError`.  When no branch is
taken (a falsy encoding) the Python function falls through and returns
`None`. -/
def unpack_gids (bd : Boundary) (text : Option String)
    (encoding compression : Option String) : Except PyErr (Option (List Int)) :=
  if encoding == some "base64" then do
    let raw ← match text with
      | Option.none => Except.error (PyErr.typeError "b64decode argument must not be NoneType")
      | some t => b64decode t
    let data ←
      if compression == some "gzip" then bd.gzip raw
      else if compression == some "zlib" then bd.zlib raw
      else if truthyS compression then
        Except.error (PyErr.exception
          ("layer compression " ++ compression.getD "" ++ " is not supported."))
      else Except.ok raw
    let gids ← unpackLE data
    .ok (some gids)
  else if encoding == some "csv" then
    match text with
    | Option.none => .error (.attributeError "split")
    | some t => do
      let gids ← (splitOnChar ',' t).mapM (fun i =>
        match pyInt? i with
        | some n => Except.ok n
        | Option.none => Except.error (PyErr.valueError ("invalid literal for int: " ++ i)))
      .ok (some gids)
  else if truthyS encoding then
    .error (.exception ("layer encoding " ++ encoding.getD "" ++ " is not supported."))
  else .ok Option.none

/-- Model of `reshape_data(gids, width)` (mason.py lines 86-88):
`[gids[i:i+width] for i in range(0, len(gids), width)]`.  A zero width makes
`range` raise `ValueError`; a negative width makes the range empty. -/
def reshape_data {α : Type} (gids : List α) (width : Int) : Except PyErr (List (List α)) :=
  if width = 0 then .error (.valueError "range() arg 3 must not be zero")
  else if width < 0 then .ok []
  else
    .ok ((List.range ((gids.length + width.toNat - 1) / width.toNat)).map
      (fun i => (gids.drop (i * width.toNat)).take width.toNat))

/-! ### The streaming parser (`mason.py`, lines 149-421) -/

/-- An XML element: tag, attributes, text (the text node before the first
child, as `ElementTree` exposes it), children. -/
inductive XML where
  | elem : String → Attrib → Option String → List XML → XML

/-- The tag of an element. -/
def XML.tag : XML → String
  | .elem t _ _ _ => t

/-- The modelled file system: file path → parsed XML document root. -/
abbrev FS := List (String × XML)

/-- Look a path up in the modelled file system. -/
def fsFind (fs : FS) (path : String) : Option XML :=
  (fs.find? (fun p => p.1 == path)).map (fun p => p.2)

/-- Model of `Data` (mason.py lines 115-119). -/
structure DataObj where
  encoding : Option String
  compression : Option String
  text : Option String
deriving DecidableEq

/-- Model of `Grid` (mason.py lines 142-146). -/
structure Grid where
  orientation : Option String
  width : Option Int
  height : Option Int
deriving DecidableEq

/-- Model of `Property` dataclass (dc.py lines 163-167). -/
structure Property where
  name : String
  type : Option String
  value : String
deriving DecidableEq

/-- The objects built by `start` and consumed by `end`: one constructor per
builder branch of mason.py lines 149-290. -/
inductive Obj where
  | data : DataObj → Obj
  | circle : Obj
  | grid : Grid → Obj
  | group : Group → Obj
  | image : Image → Obj
  | imagelayer : ImageLayer → Obj
  | tilelayer : TileLayer → Obj
  | map : Map → Obj
  | object : Object → Obj
  | objectgroup : ObjectGroup → Obj
  | point : Point → Obj
  | polygon : Polygon → Obj
  | polyline : Polyline → Obj
  | props : List (String × String) → Obj
  | property : Property → Obj
  | tile : Tile → Obj
  | text : TextObj → Obj
  | tileset : Tileset → Obj

/-- The parsing `Context` (mason.py lines 91-99).  The `map` field is never
read anywhere and is omitted; `image_loader` is fixed to
`default_image_loader`, the only loader in the repository; `invert_y`'s
`None` default is falsy like `False` and is modelled as `false`. -/
structure Context where
  path : Option String := none
  folder : String := ""
  invert_y : Bool := false
  tiles : List (Int × Option Tile) := []
  firstgid : Int := 0

/-- Model of `ctx.tiles[gid]`: dict lookup, `KeyError` on a miss. -/
def tilesGet (d : List (Int × Option Tile)) (k : Int) : Except PyErr (Option Tile) :=
  match d.find? (fun p => p.1 == k) with
  | Option.none => .error .keyError
  | some p => .ok p.2

/-- Model of `ctx.tiles[gid] = t`: dict assignment; the newest binding shadows. -/
def tilesSet (d : List (Int × Option Tile)) (k : Int) (v : Option Tile) :
    List (Int × Option Tile) :=
  (k, v) :: d

/-- Model of `d[name] = value` on a property dict. -/
def dictSet (d : List (String × String)) (k v : String) : List (String × String) :=
  (k, v) :: d

/-- Model of `decode_gid(g)[0]` applied to a Python int.  TMX gids are non-negative;
a negative value (possible only from a csv literal or a negative declared
firstgid) keeps its sign under Python's two's-complement masking and can
never equal a stored cache key, so it is passed through unchanged. -/
def decode_gid_key (g : Int) : Int :=
  match g with
  | .ofNat n => ((decode_gid n).1 : Int)
  | .negSucc _ => g

/-- Model of `decode_gid(g)[1]` applied to a Python int (negative raw gids never occur
at this call site for the documents modelled here). -/
def decode_flags (g : Int) : TileFlags :=
  match g with
  | .ofNat n => (decode_gid n).2
  | .negSucc _ => ⟨false, false, false⟩

/-! #### Start-event builders (`start`, mason.py lines 149-290) -/

/-- The `Data` builder (mason.py lines 152-157). -/
def buildData (a : Attrib) (text : Option String) : Except PyErr Obj :=
  .ok (.data { encoding := getS a "encoding", compression := getS a "compression", text := text })

/-- The `Grid` builder (mason.py lines 160-161). -/
def buildGrid (a : Attrib) : Except PyErr Obj := do
  let orientation := getS a "orientation"
  let width ← getI a "width" Option.none
  let height ← getI a "height" Option.none
  .ok (.grid ⟨orientation, width, height⟩)

/-- The `Group` builder (mason.py lines 162-170). -/
def buildGroup (a : Attrib) : Except PyErr Obj := do
  let name := getS a "name"
  let opacity ← getFD a "opacity" 1
  let visible := getB a "visible" true
  .ok (.group (.mk name opacity visible (getS a "tintcolor") (getS a "offsetx")
    (getS a "offsety") []))

/-- The `Image` builder (mason.py lines 171-177). -/
def buildImage (a : Attrib) : Except PyErr Obj := do
  let source := getS a "source"
  let width ← getI a "width" Option.none
  let height ← getI a "height" Option.none
  .ok (.image { source := source, width := width, height := height, trans := getS a "trans" })

/-- The `Imagelayer` builder (mason.py lines 178-179).  The `image`
start-tag attribute never occurs in a TMX document and is modelled as
absent; the field is set by the `Imagelayer.Image` reducer. -/
def buildImagelayer (a : Attrib) : Except PyErr Obj :=
  .ok (.imagelayer { name := getS a "name", visible := getS a "visible", image := Option.none })

/-- The `Layer` builder (mason.py lines 180-189).  The `data` start-tag
attribute never occurs in a TMX document and is modelled as absent. -/
def buildLayer (a : Attrib) : Except PyErr Obj := do
  let name := getS a "name"
  let opacity ← getFD a "opacity" 1
  let visible := getB a "visible" true
  let tintcolor := getS a "tintcolor"
  let offsetx := getS a "offsetx"
  let offsety := getS a "offsety"
  .ok (.tilelayer
    { name := name, opacity := opacity, visible := visible, tintcolor := tintcolor,
      offsetx := offsetx, offsety := offsety, data := .none })

/-- The `Map` builder (mason.py lines 190-207). -/
def buildMap (ctx : Context) (a : Attrib) : Except PyErr Obj := do
  let version := getS a "version"
  let tiledversion := getS a "tiledversion"
  let orientation := getS a "orientation"
  let renderorder := getS a "renderorder"
  let compressionlevel := getS a "compressionlevel"
  let width ← getI a "width" Option.none
  let height ← getI a "height" Option.none
  let tilewidth ← getI a "tilewidth" Option.none
  let tileheight ← getI a "tileheight" Option.none
  let hexsidelength ← getI a "hexsidelength" Option.none
  let staggeraxis ← getI a "staggeraxis" Option.none
  let staggerindex ← getI a "staggerindex" Option.none
  let background_color := getS a "backgroundcolor"
  let infinite := getB a "infinite" false
  .ok (.map
    { version := version, tiledversion := tiledversion, orientation := orientation,
      renderorder := renderorder, compressionlevel := compressionlevel, width := width,
      height := height, tilewidth := tilewidth, tileheight := tileheight,
      hexsidelength := hexsidelength, staggeraxis := staggeraxis,
      staggerindex := staggerindex, background_color := background_color,
      infinite := infinite, filename := ctx.path })

/-- The `Object` builder (mason.py lines 208-223), including the Y-axis
inversion: when the context's invert flag and the declared height are truthy,
`y -= height` (a `None` y raises `TypeError` there). -/
def buildObject (ctx : Context) (a : Attrib) : Except PyErr Obj := do
  let y0 ← getF a "y"
  let height ← getF a "height"
  let y ←
    if ctx.invert_y && truthyF height then
      match y0 with
      | Option.none => Except.error (PyErr.typeError "unsupported operand for -=: NoneType")
      | some yv => Except.ok (some (yv - height.getD 0))
    else Except.ok y0
  let name := getS a "name"
  let ty := getS a "type"
  let x ← getF a "x"
  let width ← getF a "width"
  let rotation ← getF a "rotation"
  let gid ← getID a "gid" 0
  let visible := getB a "visible" true
  .ok (.object
    { name := name, type := ty, x := x, y := y, width := width, height := height,
      rotation := rotation, gid := gid, visible := visible })

/-- The `Objectgroup` builder (mason.py lines 224-234). -/
def buildObjectgroup (a : Attrib) : Except PyErr Obj := do
  let name := getS a "name"
  let color := getS a "color"
  let opacity ← getFD a "opacity" 1
  let visible := getB a "visible" true
  let tintcolor := getS a "tintcolor"
  let offsetx ← getF a "offsetx"
  let offsety ← getF a "offsety"
  let draworder := getS a "draworder"
  .ok (.objectgroup
    { name := name, color := color, opacity := opacity, visible := visible,
      tintcolor := tintcolor, offsetx := offsetx, offsety := offsety,
      draworder := draworder })

/-- The `Point` builder (mason.py lines 235-236). -/
def buildPoint (a : Attrib) : Except PyErr Obj := do
  let x ← getI a "x" Option.none
  let y ← getI a "y" Option.none
  .ok (.point ⟨x, y⟩)

/-- The `Polygon` builder (mason.py lines 237-240): split the `points`
attribute on whitespace, split each piece on commas, `float` each part.  A
missing attribute raises `AttributeError` (`None.split`). -/
def buildPolygon (a : Attrib) : Except PyErr Obj := do
  match getS a "points" with
  | Option.none => .error (.attributeError "split")
  | some t => do
    let pieces := pyStrSplit t
    let points ← pieces.mapM (fun piece =>
      (splitOnChar ',' piece).mapM (fun c =>
        match pyFloat? c with
        | some q => Except.ok q
        | Option.none =>
          Except.error (PyErr.valueError ("could not convert string to float: " ++ c))))
    .ok (.polygon ⟨points⟩)

/-- The `Polyline` builder (mason.py lines 241-242): the raw attribute. -/
def buildPolyline (a : Attrib) : Except PyErr Obj :=
  .ok (.polyline ⟨getS a "points"⟩)

/-- The `Property` builder (mason.py lines 245-246): `attrib["name"]` and
`attrib["value"]` are mandatory. -/
def buildProperty (a : Attrib) : Except PyErr Obj := do
  let name ← aindex a "name"
  let ty := getS a "type"
  let value ← aindex a "value"
  .ok (.property ⟨name, ty, value⟩)

/-- The `Tile` builder (mason.py lines 247-253). -/
def buildTile (a : Attrib) : Except PyErr Obj := do
  let id ← getI a "id" Option.none
  let gid ← getI a "gid" Option.none
  .ok (.tile { id := id, gid := gid, type := getS a "type", terrain := getS a "terrain" })

/-- The `Text` builder (mason.py lines 254-267). -/
def buildText (a : Attrib) : Except PyErr Obj :=
  .ok (.text
    { fontfamily := getS a "fontfamily", pixelsize := getS a "pixelsize",
      wrap := getS a "wrap", color := getS a "color", bold := getS a "bold",
      italic := getS a "italic", underline := getS a "underline",
      strikeout := getS a "strikeout", kerning := getS a "kerning",
      halign := getS a "halign", valign := getS a "valign" })

/-- The inline `Tileset` builder (mason.py lines 278-289). -/
def buildTileset (a : Attrib) : Except PyErr Obj := do
  let firstgid ← getID a "firstgid" 0
  let source := getS a "source"
  let name := getS a "name"
  let tilewidth ← getI a "tilewidth" Option.none
  let tileheight ← getI a "tileheight" Option.none
  let spacing ← getID a "spacing" 0
  let margin ← getID a "margin" 0
  .ok (.tileset
    { firstgid := firstgid, source := source, name := name, tilewidth := tilewidth,
      tileheight := tileheight, spacing := spacing, margin := margin,
      tilecount := getS a "tilecount", columns := getS a "columns",
      objectalignment := getS a "objectalignment" })

/-! #### End-event reducers (`end`, mason.py lines 293-377) -/

/-- The registration loop of the `Tileset.Image` reducer (mason.py lines
357-360): `for raw_gid, (y, x) in enumerate(p, firstgid)`, each raw gid
flag-stripped and a tile holding the sliced source rectangle stored in the
cache. -/
def registerTiles (d : List (Int × Option Tile)) (firstgid : Int)
    (p : List (Int × Int)) (src : String) (tw th : Int) : List (Int × Option Tile) :=
  match p with
  | [] => d
  | (y, x) :: rest =>
    let gid := decode_gid_key firstgid
    let flags := decode_flags firstgid
    registerTiles
      (tilesSet d gid (some
        { gid := some gid, image := some ⟨src, some (x, y, tw, th), some flags⟩ }))
      (firstgid + 1) rest src tw th

/-- The `Data.Tile` reducer branch (mason.py lines 294-297). -/
def endDataTile : Except PyErr (Context × Obj) :=
  .error (.masonError
    "Map using XML Tile elements not supported.  Save file under a new format.")

/-- The `Group.Layer` reducer branch (mason.py lines 298-299). -/
def endGroupLayer (ctx : Context) (parent child : Obj) : Except PyErr (Context × Obj) :=
  match parent, child with
  | .group g, .tilelayer tl => .ok (ctx, .group (g.withLayers (g.layers ++ [.tile tl])))
  | _, _ => .error (.attributeError "layers")

/-- The `Group.Objectgroup` reducer branch (mason.py lines 300-301). -/
def endGroupObjectgroup (ctx : Context) (parent child : Obj) : Except PyErr (Context × Obj) :=
  match parent, child with
  | .group g, .objectgroup og => .ok (ctx, .group (g.withLayers (g.layers ++ [.objgroup og])))
  | _, _ => .error (.attributeError "layers")

/-- The `Imagelayer.Image` reducer branch (mason.py lines 302-303). -/
def endImagelayerImage (ctx : Context) (parent child : Obj) : Except PyErr (Context × Obj) :=
  match parent, child with
  | .imagelayer il, .image im => .ok (ctx, .imagelayer { il with image := some im })
  | _, _ => .error (.attributeError "image")

/-- The `Layer.Data` reducer branch (mason.py lines 304-305):
`parent.data = unpack_gids(child.text, child.encoding, child.compression)`. -/
def endLayerData (bd : Boundary) (ctx : Context) (parent child : Obj) :
    Except PyErr (Context × Obj) :=
  match parent, child with
  | .tilelayer tl, .data d => do
    let gids ← unpack_gids bd d.text d.encoding d.compression
    match gids with
    | Option.none => .ok (ctx, .tilelayer { tl with data := .none })
    | some l => .ok (ctx, .tilelayer { tl with data := .gids l })
  | _, _ => .error (.attributeError "data")

/-- The `Layer.Properties` reducer branch (mason.py lines 306-307). -/
def endLayerProperties (ctx : Context) (parent child : Obj) : Except PyErr (Context × Obj) :=
  match parent, child with
  | .tilelayer tl, .props p => .ok (ctx, .tilelayer { tl with properties := p })
  | _, _ => .error (.attributeError "properties")

/-- The `Map.Group` reducer branch (`add_layer`, mason.py lines 315-316). -/
def endMapGroup (ctx : Context) (parent child : Obj) : Except PyErr (Context × Obj) :=
  match parent, child with
  | .map m, .group g => .ok (ctx, .map { m with layers := m.layers ++ [.group g] })
  | _, _ => .error (.attributeError "add_layer")

/-- The `Map.Imagelayer` reducer branch (mason.py lines 317-318). -/
def endMapImagelayer (ctx : Context) (parent child : Obj) : Except PyErr (Context × Obj) :=
  match parent, child with
  | .map m, .imagelayer il => .ok (ctx, .map { m with layers := m.layers ++ [.image il] })
  | _, _ => .error (.attributeError "add_layer")

/-- The `Map.Layer` reducer branch (mason.py lines 319-320). -/
def endMapLayer (ctx : Context) (parent child : Obj) : Except PyErr (Context × Obj) :=
  match parent, child with
  | .map m, .tilelayer tl => .ok (ctx, .map { m with layers := m.layers ++ [.tile tl] })
  | _, _ => .error (.attributeError "add_layer")

/-- The `Map.Objectgroup` reducer branch (mason.py lines 321-322). -/
def endMapObjectgroup (ctx : Context) (parent child : Obj) : Except PyErr (Context × Obj) :=
  match parent, child with
  | .map m, .objectgroup og => .ok (ctx, .map { m with layers := m.layers ++ [.objgroup og] })
  | _, _ => .error (.attributeError "add_layer")

/-- The `Map.Properties` reducer branch (mason.py lines 323-324). -/
def endMapProperties (ctx : Context) (parent child : Obj) : Except PyErr (Context × Obj) :=
  match parent, child with
  | .map m, .props p => .ok (ctx, .map { m with properties := p })
  | _, _ => .error (.attributeError "properties")

/-- The `Map.Tileset` reducer branch (`add_tileset`, mason.py lines 325-326);
`add_tileset` asserts the child is a `Tileset`. -/
def endMapTileset (ctx : Context) (parent child : Obj) : Except PyErr (Context × Obj) :=
  match parent, child with
  | .map m, .tileset ts => .ok (ctx, .map { m with tilesets := m.tilesets ++ [ts] })
  | .map _, _ => .error .assertionError
  | _, _ => .error (.attributeError "add_tileset")

/-- The `Object.Ellipse` reducer branch (mason.py lines 327-328). -/
def endObjectEllipse (ctx : Context) (parent child : Obj) : Except PyErr (Context × Obj) :=
  match parent, child with
  | .object o, .circle => .ok (ctx, .object { o with shapes := o.shapes ++ [.circle] })
  | _, _ => .error (.attributeError "shapes")

/-- The `Object.Point` reducer branch (mason.py lines 329-330). -/
def endObjectPoint (ctx : Context) (parent child : Obj) : Except PyErr (Context × Obj) :=
  match parent, child with
  | .object o, .point p => .ok (ctx, .object { o with shapes := o.shapes ++ [.point p] })
  | _, _ => .error (.attributeError "shapes")

/-- The `Object.Properties` reducer branch (mason.py lines 331-332). -/
def endObjectProperties (ctx : Context) (parent child : Obj) : Except PyErr (Context × Obj) :=
  match parent, child with
  | .object o, .props p => .ok (ctx, .object { o with properties := p })
  | _, _ => .error (.attributeError "properties")

/-- The `Object.Polygon` reducer branch (mason.py lines 333-334). -/
def endObjectPolygon (ctx : Context) (parent child : Obj) : Except PyErr (Context × Obj) :=
  match parent, child with
  | .object o, .polygon p => .ok (ctx, .object { o with shapes := o.shapes ++ [.polygon p] })
  | _, _ => .error (.attributeError "shapes")

/-- The `Object.Polyline` reducer branch (mason.py lines 335-336). -/
def endObjectPolyline (ctx : Context) (parent child : Obj) : Except PyErr (Context × Obj) :=
  match parent, child with
  | .object o, .polyline p => .ok (ctx, .object { o with shapes := o.shapes ++ [.polyline p] })
  | _, _ => .error (.attributeError "shapes")

/-- The `Objectgroup.Object` reducer branch (mason.py lines 337-338). -/
def endObjectgroupObject (ctx : Context) (parent child : Obj) : Except PyErr (Context × Obj) :=
  match parent, child with
  | .objectgroup og, .object o => .ok (ctx, .objectgroup { og with objects := og.objects ++ [o] })
  | _, _ => .error (.attributeError "objects")

/-- The `Object.Text` reducer branch (mason.py lines 339-340). -/
def endObjectText (ctx : Context) (parent child : Obj) : Except PyErr (Context × Obj) :=
  match parent, child with
  | .object o, .text t => .ok (ctx, .object { o with shapes := o.shapes ++ [.text t] })
  | _, _ => .error (.attributeError "shapes")

/-- The `Properties.Property` reducer branch (mason.py lines 341-342). -/
def endPropertiesProperty (ctx : Context) (parent child : Obj) : Except PyErr (Context × Obj) :=
  match parent, child with
  | .props d, .property p => .ok (ctx, .props (dictSet d p.name p.value))
  | _, _ => .error (.attributeError "data")

/-- The `Tileset.Grid` reducer branch (mason.py lines 343-345): adopt the
grid orientation, then `assert parent.orientation == "orthogonal"`. -/
def endTilesetGrid (ctx : Context) (parent child : Obj) : Except PyErr (Context × Obj) :=
  match parent, child with
  | .tileset ts, .grid g =>
    if g.orientation == some "orthogonal" then
      .ok (ctx, .tileset { ts with orientation := g.orientation })
    else .error .assertionError
  | _, _ => .error (.attributeError "orientation")

/-- The `Tileset.Image` reducer branch (mason.py lines 346-360): resolve the
sheet path, bind the default loader, slice with `iter_image_tiles`, and
register one cache tile per slice starting at the tileset firstgid.  A
`None` source fails in `os.path.join`; a `None` dimension fails in the range
arithmetic; a zero range step raises `ValueError`. -/
def endTilesetImage (ctx : Context) (parent child : Obj) : Except PyErr (Context × Obj) :=
  match parent, child with
  | .tileset ts, .image im =>
    match im.source with
    | Option.none => .error (.typeError "join() argument must be str, not NoneType")
    | some src =>
      let fullPath := joinPath ctx.folder src
      match im.width, im.height, ts.tilewidth, ts.tileheight with
      | some w, some h, some tw, some th =>
        if th + ts.spacing = 0 || tw + ts.spacing = 0 then
          .error (.valueError "range() arg 3 must not be zero")
        else
          let p := iter_image_tiles w h tw th ts.margin ts.spacing
          .ok ({ ctx with tiles := registerTiles ctx.tiles ts.firstgid p fullPath tw th },
            .tileset ts)
      | _, _, _, _ =>
        .error (.typeError "unsupported operand for +: NoneType")
  | _, _ => .error (.attributeError "source")

/-- The `Tileset.Properties` reducer branch (mason.py lines 361-362). -/
def endTilesetProperties (ctx : Context) (parent child : Obj) : Except PyErr (Context × Obj) :=
  match parent, child with
  | .tileset ts, .props p => .ok (ctx, .tileset { ts with properties := p })
  | _, _ => .error (.attributeError "properties")

/-- The `Tile.Properties` reducer branch (mason.py lines 363-364). -/
def endTileProperties (ctx : Context) (parent child : Obj) : Except PyErr (Context × Obj) :=
  match parent, child with
  | .tile t, .props p => .ok (ctx, .tile { t with properties := some p })
  | _, _ => .error (.attributeError "properties")

/-- The `Tile.Image` reducer branch (mason.py lines 365-368):
`ctx.image_loader(path)()` calls `default_image_loader` with one positional
argument, but it requires two (`filename`, `flags`), so the call raises
`TypeError` (after the join, which itself fails on a `None` source). -/
def endTileImage (ctx : Context) (parent child : Obj) : Except PyErr (Context × Obj) :=
  match parent, child with
  | .tile _, .image im =>
    match im.source with
    | Option.none => .error (.typeError "join() argument must be str, not NoneType")
    | some _ =>
      .error (.typeError "default_image_loader missing 1 required positional argument: flags")
  | _, _ => .error (.attributeError "source")

/-- The `Tileset.Tile` reducer branch (mason.py lines 371-375): an external
tileset with a falsy firstgid inherits the context's pending firstgid, then
the tile is cached under `firstgid + id` (a `None` id fails in the `+`). -/
def endTilesetTile (ctx : Context) (parent child : Obj) : Except PyErr (Context × Obj) :=
  match parent, child with
  | .tileset ts, .tile t =>
    let ts2 := if ts.firstgid = 0 then { ts with firstgid := ctx.firstgid } else ts
    match t.id with
    | Option.none => .error (.typeError "unsupported operand for +: NoneType")
    | some i =>
      .ok ({ ctx with tiles := tilesSet ctx.tiles (ts2.firstgid + i) (some t) }, .tileset ts2)
  | _, _ => .error (.attributeError "firstgid")

/-- Model of `end(ctx, path, parent, child, stack)` (mason.py lines 293-377) for a
non-root end event: the flat dispatch on the literal "Parent.Child" path
string, in source order.  The `stack` argument is unused by the source.
Branches matching a parent or child shape the corresponding builders can
never produce are modelled (inside the helpers above) as the error Python
would raise on the mismatched object. -/
def reduceEnd (bd : Boundary) (ctx : Context) (path : String) (parent child : Obj) :
    Except PyErr (Context × Obj) :=
  if path == "Data.Tile" then endDataTile
  else if path == "Group.Layer" then endGroupLayer ctx parent child
  else if path == "Group.Objectgroup" then endGroupObjectgroup ctx parent child
  else if path == "Imagelayer.Image" then endImagelayerImage ctx parent child
  else if path == "Layer.Data" then endLayerData bd ctx parent child
  else if path == "Layer.Properties" then endLayerProperties ctx parent child
  else if path == "Map.Group" then endMapGroup ctx parent child
  else if path == "Map.Imagelayer" then endMapImagelayer ctx parent child
  else if path == "Map.Layer" then endMapLayer ctx parent child
  else if path == "Map.Objectgroup" then endMapObjectgroup ctx parent child
  else if path == "Map.Properties" then endMapProperties ctx parent child
  else if path == "Map.Tileset" then endMapTileset ctx parent child
  else if path == "Object.Ellipse" then endObjectEllipse ctx parent child
  else if path == "Object.Point" then endObjectPoint ctx parent child
  else if path == "Object.Properties" then endObjectProperties ctx parent child
  else if path == "Object.Polygon" then endObjectPolygon ctx parent child
  else if path == "Object.Polyline" then endObjectPolyline ctx parent child
  else if path == "Objectgroup.Object" then endObjectgroupObject ctx parent child
  else if path == "Object.Text" then endObjectText ctx parent child
  else if path == "Properties.Property" then endPropertiesProperty ctx parent child
  else if path == "Tileset.Grid" then endTilesetGrid ctx parent child
  else if path == "Tileset.Image" then endTilesetImage ctx parent child
  else if path == "Tileset.Properties" then endTilesetProperties ctx parent child
  else if path == "Tile.Properties" then endTileProperties ctx parent child
  else if path == "Tile.Image" then endTileImage ctx parent child
  else if path == "Tileset.Tile" then endTilesetTile ctx parent child
  else .error (.valueError path)

/-- The root-element `end` call (`end(ctx, t.type, None, t.obj, stack)`;
mason.py lines 308-314 and 369-370): "Map" resolves every top-level tile
layer's flat gid list against the tile cache (stripping flag bits) and
reshapes it into rows of length `map.width`; "Tileset" is a no-op; any other
root tag hits the final `ValueError(path)`. -/
def reduceRoot (ctx : Context) (tag : String) (child : Obj) : Except PyErr (Context × Obj) :=
  if tag == "Map" then
    match child with
    | .map m => do
      let layers ← m.layers.mapM (fun l =>
        match l with
        | .tile tl => do
          let flat ← match tl.data with
            | .gids gl => gl.mapM (fun g => tilesGet ctx.tiles (decode_gid_key g))
            | .none => Except.error (PyErr.typeError "NoneType is not iterable")
            | .tiles _ => Except.error (PyErr.typeError "Tile is not a valid dict key")
          let rows ← match m.width with
            | Option.none =>
              Except.error (PyErr.typeError "NoneType cannot be interpreted as an integer")
            | some w => reshape_data flat w
          pure (Layer.tile { tl with data := .tiles rows })
        | other => pure other)
      .ok (ctx, .map { m with layers := layers })
    | _ => .error (.attributeError "tile_layers")
  else if tag == "Tileset" then .ok (ctx, child)
  else .error (.valueError tag)

/-- The requests the parse engine answers: parse a whole file, process one
element (start event, children, own object), fold the end events of a child
list, or run one start-event build. -/
inductive PReq where
  | file : Context → String → PReq
  | elem : Context → XML → PReq
  | children : Context → String → Obj → List XML → PReq
  | startTag : Context → String → Attrib → Option String → PReq

/-- The parse engine (`iter_tmx` and `start`, mason.py lines 149-290 and
386-409).  `file` parses a document; the last object `iter_tmx` yields is
the root's, after its root `end` reduction.  `elem` dispatches the start
event and then the children's end events in document order, mirroring the
token stack.  `startTag` is the builder dispatch, whose `Tileset` branch
(mason.py lines 268-277) records a truthy declared firstgid in the context
and, for a truthy `source`, recursively parses the referenced file and
returns its result object instead.  The `Nat` argument is recursion fuel:
Python recurses unboundedly on cyclic tileset references (spec section 5
accepts this), and every recursive call here consumes one unit. -/
def pstep (fs : FS) (bd : Boundary) : Nat → PReq → Except PyErr (Context × Obj)
  | 0, _ => .error .outOfFuel
  | fuel + 1, req =>
    match req with
    | .file ctx path =>
      match fsFind fs path with
      | Option.none => .error (.fileNotFound path)
      | some x => do
        let (ctx2, obj) ← pstep fs bd fuel (.elem ctx x)
        reduceRoot ctx2 (pyTitle x.tag) obj
    | .elem ctx x =>
      match x with
      | .elem tag attrib text children => do
        let (ctx2, obj) ← pstep fs bd fuel (.startTag ctx (pyTitle tag) attrib text)
        pstep fs bd fuel (.children ctx2 (pyTitle tag) obj children)
    | .children ctx _ pobj [] => .ok (ctx, pobj)
    | .children ctx pname pobj (c :: rest) => do
      let (ctx2, cobj) ← pstep fs bd fuel (.elem ctx c)
      let (ctx3, pobj2) ← reduceEnd bd ctx2 (pname ++ "." ++ pyTitle c.tag) pobj cobj
      pstep fs bd fuel (.children ctx3 pname pobj2 rest)
    | .startTag ctx name attrib text =>
      if name == "Data" then (buildData attrib text).map (fun o => (ctx, o))
      else if name == "Ellipse" then .ok (ctx, .circle)
      else if name == "Grid" then (buildGrid attrib).map (fun o => (ctx, o))
      else if name == "Group" then (buildGroup attrib).map (fun o => (ctx, o))
      else if name == "Image" then (buildImage attrib).map (fun o => (ctx, o))
      else if name == "Imagelayer" then (buildImagelayer attrib).map (fun o => (ctx, o))
      else if name == "Layer" then (buildLayer attrib).map (fun o => (ctx, o))
      else if name == "Map" then (buildMap ctx attrib).map (fun o => (ctx, o))
      else if name == "Object" then (buildObject ctx attrib).map (fun o => (ctx, o))
      else if name == "Objectgroup" then (buildObjectgroup attrib).map (fun o => (ctx, o))
      else if name == "Point" then (buildPoint attrib).map (fun o => (ctx, o))
      else if name == "Polygon" then (buildPolygon attrib).map (fun o => (ctx, o))
      else if name == "Polyline" then (buildPolyline attrib).map (fun o => (ctx, o))
      else if name == "Properties" then .ok (ctx, .props [])
      else if name == "Property" then (buildProperty attrib).map (fun o => (ctx, o))
      else if name == "Tile" then (buildTile attrib).map (fun o => (ctx, o))
      else if name == "Text" then (buildText attrib).map (fun o => (ctx, o))
      else if name == "Tileset" then
        let source := getS attrib "source"
        match getI attrib "firstgid" Option.none with
        | .error e => .error e
        | .ok firstgid =>
          let ctx2 := if truthyI firstgid then { ctx with firstgid := firstgid.getD 0 } else ctx
          if truthyS source then
            pstep fs bd fuel (.file ctx2 (joinPath ctx2.folder (source.getD "")))
          else (buildTileset attrib).map (fun o => (ctx2, o))
      else .error (.valueError name)

/-- Model of `load_tmx(path, image_loader)` (mason.py lines 412-421) with the default
image loader: build the context (Y inversion enabled, tile cache seeded with
gid 0 → no tile), parse, and return the root object. -/
def load_tmx (fs : FS) (bd : Boundary) (fuel : Nat) (path : String) :
    Except PyErr (Context × Obj) :=
  pstep fs bd fuel
    (.file
      { path := some path, folder := dirname path, invert_y := true,
        tiles := [(0, Option.none)], firstgid := 0 }
      path)

/-! ### Except extraction helpers -/

lemma except_bind_eq_ok {ε α β : Type} {x : Except ε α} {f : α → Except ε β} {b : β} :
    (x >>= f) = .ok b ↔ ∃ a, x = .ok a ∧ f a = .ok b := by
  cases x <;> simp [Bind.bind, Except.bind]

lemma except_map_eq_ok {ε α β : Type} {x : Except ε α} {f : α → β} {b : β} :
    x.map f = .ok b ↔ ∃ a, x = .ok a ∧ f a = b := by
  cases x <;> simp [Except.map]

lemma except_ok_bind {ε α β : Type} (a : α) (f : α → Except ε β) :
    (Except.ok a >>= f) = f a :=
  rfl

lemma except_error_bind {ε α β : Type} (e : ε) (f : α → Except ε β) :
    ((Except.error e : Except ε α) >>= f) = .error e :=
  rfl

/-! ### Concrete fixtures -/

/-- A boundary instance for documents that use no compression (neither
decompressor is ever reached in the runs below). -/
def noDecompression : Boundary :=
  ⟨fun _ => .error (.exception "gzip unavailable"),
   fun _ => .error (.exception "zlib unavailable")⟩

/-- A one-layer, one-tileset TMX document: a 2x1 map with 8x8 tiles, a
tileset sliced from a 16x8 sheet, and a csv-encoded layer `1,2`. -/
def tmxFS1 : FS :=
  [("m1.tmx", .elem "map"
    [("width", "2"), ("height", "1"), ("tilewidth", "8"), ("tileheight", "8")] Option.none
    [.elem "tileset"
      [("firstgid", "1"), ("name", "ts"), ("tilewidth", "8"), ("tileheight", "8")] Option.none
      [.elem "image" [("source", "s.png"), ("width", "16"), ("height", "8")] Option.none []],
     .elem "layer" [("name", "L")] Option.none
      [.elem "data" [("encoding", "csv")] (some "1,2") []]])]

/-- The load of `m1.tmx`. -/
def m1res : Except PyErr (Context × Obj) :=
  load_tmx tmxFS1 noDecompression 50 "m1.tmx"

/-- The context produced by loading `m1.tmx`. -/
def m1ctx : Context :=
  match m1res with
  | .ok (c, _) => c
  | _ => {}

/-- The map produced by loading `m1.tmx`. -/
def m1map : Map :=
  match m1res with
  | .ok (_, .map m) => m
  | _ => {}

/-! ### C10 — missing encoding decodes to None -/

/-- C10: for a Data payload whose encoding attribute is absent, `unpack_gids`
returns `None` without raising, regardless of the text or compression
attribute; consequently the `Layer.Data` reducer silently stores `None` as
the layer's data instead of a gid list — a missing encoding is not treated
as an unsupported-format failure. -/
theorem unpack_gids_no_encoding (bd : Boundary) (text comp : Option String)
    (ctx : Context) (tl : TileLayer) :
    unpack_gids bd text Option.none comp = .ok Option.none ∧
      reduceEnd bd ctx "Layer.Data" (.tilelayer tl) (.data ⟨Option.none, comp, text⟩) =
        .ok (ctx, .tilelayer { tl with data := .none }) :=
  ⟨rfl, rfl⟩

/-! ### C4 — unsupported encodings and compressions fail fatally -/

/-- C4: decoding a Data payload with an encoding label other than `base64`
or `csv` fails fatally with the "layer encoding ... is not supported."
exception naming the label, and (under `base64`, once the text base64-decodes)
a compression label other than `gzip`, `zlib`, or absent fails fatally with
the "layer compression ... is not supported." exception naming the label
(e.g. `lzma`); no gid list is produced in either case.  (A present-but-empty
label string is falsy in Python and falls through instead.) -/
theorem unpack_gids_unsupported (bd : Boundary) :
    (∀ (text : Option String) (enc : String) (comp : Option String),
      enc ≠ "base64" → enc ≠ "csv" → enc ≠ "" →
        unpack_gids bd text (some enc) comp =
          .error (.exception ("layer encoding " ++ enc ++ " is not supported."))) ∧
    (∀ (t : String) (bs : List Nat) (comp : String),
      b64decode t = .ok bs → comp ≠ "gzip" → comp ≠ "zlib" → comp ≠ "" →
        unpack_gids bd (some t) (some "base64") (some comp) =
          .error (.exception ("layer compression " ++ comp ++ " is not supported."))) := by
  constructor
  · intro text enc comp h1 h2 h3
    have e1 : (some enc == some "base64") = false := by simp [h1]
    have e2 : (some enc == some "csv") = false := by simp [h2]
    have e3 : truthyS (some enc) = true := by simp [truthyS, h3]
    simp [unpack_gids, e1, e2, e3]
  · intro t bs comp hb h1 h2 h3
    have e1 : (some comp == some "gzip") = false := by simp [h1]
    have e2 : (some comp == some "zlib") = false := by simp [h2]
    have e3 : truthyS (some comp) = true := by simp [truthyS, h3]
    simp [unpack_gids, hb, e1, e2, e3, except_ok_bind, except_error_bind]

/-- Witness for `unpack_gids_unsupported`: encoding "zstd" and (under base64
with empty, validly-decoding text) compression "lzma" both fail with the
exception naming the label. -/
theorem unpack_gids_unsupported_witness :
    unpack_gids noDecompression (some "1,2") (some "zstd") Option.none =
        .error (.exception "layer encoding zstd is not supported.") ∧
      unpack_gids noDecompression (some "") (some "base64") (some "lzma") =
        .error (.exception "layer compression lzma is not supported.") :=
  ⟨(unpack_gids_unsupported noDecompression).1 (some "1,2") "zstd" Option.none
      (by decide) (by decide) (by decide),
   (unpack_gids_unsupported noDecompression).2 "" [] "lzma" rfl
      (by decide) (by decide) (by decide)⟩

/-! ### C3 — external tileset firstgid -/

/-- The context with which the referencing document's `Tileset` start tag is
processed (as `load_tmx` would have built it). -/
def c3ctx : Context :=
  { path := some "m.tmx", folder := "", invert_y := true,
    tiles := [(0, Option.none)], firstgid := 0 }

/-- An external tileset file of the most common kind: a sprite-sheet tileset
with an `<image>` child and no `<tile>` children, declaring no firstgid of
its own. -/
def c3fs : FS :=
  [("shared.tsx", .elem "tileset"
    [("name", "shared"), ("tilewidth", "32"), ("tileheight", "32")] Option.none
    [.elem "image" [("source", "sheet.png"), ("width", "102"), ("height", "34")] Option.none []])]

/-- The parse of `<tileset firstgid="5" source="shared.tsx">`. -/
def c3run : Except PyErr (Context × Obj) :=
  pstep c3fs noDecompression 20
    (.startTag c3ctx "Tileset" [("firstgid", "5"), ("source", "shared.tsx")] Option.none)

/-- C3 divergence: the referencing tag declares `firstgid="5"`, but the
returned external tileset keeps firstgid 0 — the declared value only reaches
`ctx.firstgid`, and the `Tileset.Tile` reducer that would copy it onto the
tileset never fires for a tileset without `<tile>` children.  The sliced
tiles are registered from gid 0 upward (cache keys 2, 1, 0 atop the seeded
0 → no-tile entry), clobbering the reserved gid 0. -/
theorem external_tileset_firstgid_dropped :
    (match c3run with
      | .ok (_, .tileset ts) => some ts.firstgid
      | _ => Option.none) = some 0 ∧
    (match c3run with
      | .ok (ctx, _) => some ctx.firstgid
      | _ => Option.none) = some 5 ∧
    (match c3run with
      | .ok (ctx, _) => some (ctx.tiles.map Prod.fst)
      | _ => Option.none) = some [2, 1, 0, 0] :=
  ⟨rfl, rfl, rfl⟩

/-! ### C8 — get_tile_locations_by_gid crashes -/

/-- C8 divergence: on the loaded map `m1.tmx` (one visible tile layer),
`get_tile_locations_by_gid` does not yield the matching coordinates — its
very first filter evaluation raises `NameError` on the undefined name
`TiledTileLayer` (and the loop body would call the nonexistent
`iter_data`). -/
theorem get_tile_locations_by_gid_raises :
    (match m1res with
      | .ok (_, .map _) => true
      | _ => false) = true ∧
      m1map.get_tile_locations_by_gid 1 = .error (.nameError "TiledTileLayer") :=
  ⟨rfl, rfl⟩

/-! ### C6 — get_tile_gid boundaries -/

/-- C6 counterexample: on the loaded map of `m1.tmx`, `get_tile_gid(0, 0, 0)`
does not return the cell's gid (a number) — it returns the resolved `Tile`
record the reshaped grid stores there (here the tile sliced from s.png whose
gid is 1). -/
theorem get_tile_gid_returns_tile_not_gid :
    (match m1map.get_tile_gid (.int 0) (.int 0) (.int 0) with
      | .ok (.int _) => true
      | _ => false) = false ∧
      m1map.get_tile_gid (.int 0) (.int 0) (.int 0) =
        .ok (.tile (some
          { gid := some 1,
            image := some ⟨"s.png", some (0, 0, 8, 8), some ⟨false, false, false⟩⟩ })) :=
  ⟨rfl, rfl⟩

/-- The inputs `assert x >= 0 and y >= 0 and layer >= 0` rejects: any
non-int argument (`TypeError`) or any negative int (`AssertionError`); the
`except` clause turns both into the same `ValueError`. -/
def badCoordInput : PyVal → PyVal → PyVal → Prop := fun x y layer =>
  match x, y, layer with
  | .int a, .int b, .int c => ¬(0 ≤ a ∧ 0 ≤ b ∧ 0 ≤ c)
  | _, _, _ => True

/-- C6 (amended): `get_tile_gid` fails with the non-negative `ValueError`
(InvalidInput) when x, y, or layer is negative or non-numeric; fails with
the "Layer not found" `ValueError` (NotFound) when the layer index is at or
past the end of the layer list; and, on a tile layer holding resolved grid
data, fails with the "coordinates invalid" `ValueError` (NotFound) when
(x, y) falls outside the grid and otherwise returns the value stored at row
y, column x — which in a loaded map is the resolved `Tile` record (or `None`
for gid 0), not a raw gid number. -/
theorem get_tile_gid_spec (m : Map) :
    (∀ x y layer : PyVal, badCoordInput x y layer →
      m.get_tile_gid x y layer = .error (.nonNegError x y layer)) ∧
    (∀ a b c : Int, 0 ≤ a → 0 ≤ b → 0 ≤ c → (m.layers.length : Int) ≤ c →
      m.get_tile_gid (.int a) (.int b) (.int c) = .error (.layerNotFound c)) ∧
    (∀ (a b c : Int) (tl : TileLayer) (rows : List (List (Option Tile))),
      0 ≤ a → 0 ≤ b → 0 ≤ c →
      m.layers[c.toNat]? = some (.tile tl) → tl.data = .tiles rows →
      (rows[b.toNat]? = Option.none →
        m.get_tile_gid (.int a) (.int b) (.int c) =
          .error (.coordsInvalid (.int a) (.int b))) ∧
      (∀ row, rows[b.toNat]? = some row → row[a.toNat]? = Option.none →
        m.get_tile_gid (.int a) (.int b) (.int c) =
          .error (.coordsInvalid (.int a) (.int b))) ∧
      (∀ row cell, rows[b.toNat]? = some row → row[a.toNat]? = some cell →
        m.get_tile_gid (.int a) (.int b) (.int c) = .ok (.tile cell))) := by
  refine ⟨?_, ?_, ?_⟩
  · intro x y layer hbad
    cases x <;> cases y <;> cases layer <;> simp only [badCoordInput] at hbad <;>
      first
        | rfl
        | (simp only [Map.get_tile_gid]
           rw [if_neg hbad])
  · intro a b c ha hb hc hlen
    have hnone : m.layers[c.toNat]? = Option.none := by
      apply List.getElem?_eq_none
      omega
    simp [Map.get_tile_gid, ha, hb, hc, hnone]
  · intro a b c tl rows ha hb hc hlayer hdata
    refine ⟨?_, ?_, ?_⟩
    · intro hrow
      simp [Map.get_tile_gid, ha, hb, hc, hlayer, hdata, hrow]
    · intro row hrow hcell
      simp [Map.get_tile_gid, ha, hb, hc, hlayer, hdata, hrow, hcell]
    · intro row cell hrow hcell
      simp [Map.get_tile_gid, ha, hb, hc, hlayer, hdata, hrow, hcell]

/-- The single tile layer of the loaded `m1.tmx`. -/
def m1tl : TileLayer :=
  match m1map.layers[0]? with
  | some (Layer.tile tl) => tl
  | _ => {}

/-- Its resolved grid. -/
def m1rows : List (List (Option Tile)) :=
  match m1tl.data with
  | .tiles r => r
  | _ => []

/-- Row 0 of the grid. -/
def m1row : List (Option Tile) := (m1rows[0]?).getD []

/-- The cell at row 0, column 1. -/
def m1cell : Option Tile := (m1row[1]?).getD Option.none

/-- Witness for `get_tile_gid_spec` on the loaded `m1.tmx`: layer index 5 is
NotFound, and (1, 0) in layer 0 returns the stored cell value. -/
theorem get_tile_gid_spec_witness :
    m1map.get_tile_gid (.int 0) (.int 0) (.int 5) = .error (.layerNotFound 5) ∧
      m1map.get_tile_gid (.int 1) (.int 0) (.int 0) = .ok (.tile m1cell) :=
  ⟨(get_tile_gid_spec m1map).2.1 0 0 5 (by decide) (by decide) (by decide) (by decide),
   ((get_tile_gid_spec m1map).2.2 1 0 0 m1tl m1rows (by decide) (by decide) (by decide)
      rfl rfl).2.2 m1row m1cell rfl rfl⟩

/-! ### C5 — object Y inversion -/

/-- C5: for an Object start tag processed with the context's invert-Y flag
set (as `load_tmx` always sets it), when the builder succeeds: a non-zero
declared height makes the stored y the declared y minus the declared height,
and a zero declared height leaves the declared y unchanged. -/
theorem object_y_inversion (fs : FS) (bd : Boundary) (fuel : Nat) (ctx : Context)
    (a : Attrib) (text : Option String) (ys hs : String) (yv hv : Rat)
    (hinv : ctx.invert_y = true)
    (hy : alookup a "y" = some ys) (hyv : pyFloat? ys = some yv)
    (hh : alookup a "height" = some hs) (hhv : pyFloat? hs = some hv)
    (ctx2 : Context) (o : Obj)
    (hok : pstep fs bd (fuel + 1) (.startTag ctx "Object" a text) = .ok (ctx2, o)) :
    ∃ ob : Object, o = .object ob ∧ ob.height = some hv ∧
      (hv ≠ 0 → ob.y = some (yv - hv)) ∧ (hv = 0 → ob.y = some yv) := by
  have hred : pstep fs bd (fuel + 1) (.startTag ctx "Object" a text) =
      (buildObject ctx a).map (fun ob => (ctx, ob)) := rfl
  rw [hred] at hok
  obtain ⟨o0, hb, hpair⟩ := except_map_eq_ok.mp hok
  have hgy : getF a "y" = .ok (some yv) := by simp [getF, hy, hyv]
  have hgh : getF a "height" = .ok (some hv) := by simp [getF, hh, hhv]
  simp only [buildObject, hgy, hgh, hinv, except_ok_bind, Bool.true_and] at hb
  by_cases h0 : hv = 0
  · subst h0
    have ht : truthyF (some 0) = false := by simp [truthyF]
    rw [ht] at hb
    simp only [Bool.false_eq_true, if_false, except_ok_bind] at hb
    obtain ⟨xv, hx, hb⟩ := except_bind_eq_ok.mp hb
    obtain ⟨wv, hw, hb⟩ := except_bind_eq_ok.mp hb
    obtain ⟨rv, hr, hb⟩ := except_bind_eq_ok.mp hb
    obtain ⟨gv, hg, hb⟩ := except_bind_eq_ok.mp hb
    injection hb with hb
    injection hpair with hctx hobj
    subst hobj
    exact ⟨_, hb.symm, rfl, fun hne => absurd rfl hne, fun _ => rfl⟩
  · have ht : truthyF (some hv) = true := by simp [truthyF, h0]
    rw [ht] at hb
    simp only [if_true, except_ok_bind] at hb
    obtain ⟨xv, hx, hb⟩ := except_bind_eq_ok.mp hb
    obtain ⟨wv, hw, hb⟩ := except_bind_eq_ok.mp hb
    obtain ⟨rv, hr, hb⟩ := except_bind_eq_ok.mp hb
    obtain ⟨gv, hg, hb⟩ := except_bind_eq_ok.mp hb
    injection hb with hb
    injection hpair with hctx hobj
    subst hobj
    exact ⟨_, hb.symm, rfl, fun _ => rfl, fun h => absurd h h0⟩

/-- The run of an Object start tag with x=0, y=100, height=20 under an
inverted-Y context. -/
def c5run : Except PyErr (Context × Obj) :=
  pstep [] noDecompression 1
    (.startTag { invert_y := true } "Object"
      [("x", "0"), ("y", "100"), ("height", "20")] Option.none)

/-- The object that run produced. -/
def c5obj : Obj :=
  match c5run with
  | .ok (_, o) => o
  | _ => .circle

/-- The context that run produced. -/
def c5ctx2 : Context :=
  match c5run with
  | .ok (c, _) => c
  | _ => {}

/-- Witness for `object_y_inversion`: y=100, height=20 stores y = 100 - 20. -/
theorem object_y_inversion_witness :
    ∃ ob : Object, c5obj = .object ob ∧ ob.height = some 20 ∧
      ((20 : Rat) ≠ 0 → ob.y = some (100 - 20)) ∧ ((20 : Rat) = 0 → ob.y = some 100) :=
  object_y_inversion [] noDecompression 0 { invert_y := true }
    [("x", "0"), ("y", "100"), ("height", "20")] Option.none "100" "20" 100 20 rfl rfl
    (by simp [pyFloat?, pyFloatAbs, charsTrim, digitsNat]) rfl
    (by simp [pyFloat?, pyFloatAbs, charsTrim, digitsNat]) c5ctx2 c5obj rfl

/-! ### C7 — get_tile_image_by_gid

Nothing in the parser ever appends to `Map.images` (the list is only created,
empty, by the `Map` builder), so every loaded map has an empty image table;
`pstep_images` proves that invariant. -/

/-- Invariant: a `map` object carries an empty image table. -/
def ObjMapImagesNil : Obj → Prop := fun o =>
  match o with
  | .map m => m.images = []
  | _ => True

/-- The invariant as required of a request's embedded parent object. -/
def ReqInv : PReq → Prop := fun r =>
  match r with
  | .children _ _ pobj _ => ObjMapImagesNil pobj
  | _ => True

lemma reduceRoot_images {ctx : Context} {tag : String} {c : Obj} {ctx' : Context} {o : Obj}
    (h : reduceRoot ctx tag c = .ok (ctx', o)) (hc : ObjMapImagesNil c) :
    ObjMapImagesNil o := by
  unfold reduceRoot at h
  split at h
  · split at h
    · obtain ⟨ls, hls, h⟩ := except_bind_eq_ok.mp h
      injection h with h1
      injection h1 with hctx ho
      subst ho
      simp only [ObjMapImagesNil] at hc ⊢
      simpa using hc
    · exact Except.noConfusion h
  · split at h
    · injection h with h1
      injection h1 with hctx ho
      subst ho
      exact hc
    · exact Except.noConfusion h

lemma endGroupLayer_images {ctx : Context} {p c : Obj} {ctx' : Context} {p' : Obj}
    (h : endGroupLayer ctx p c = .ok (ctx', p')) (hp : ObjMapImagesNil p) :
    ObjMapImagesNil p' := by
  unfold endGroupLayer at h
  repeat' split at h
  all_goals try obtain ⟨gv, hgv, h⟩ := except_bind_eq_ok.mp h
  all_goals try split at h
  all_goals
    first
      | exact Except.noConfusion h
      | (injection h with h1
         injection h1 with hctx ho
         subst ho
         simp_all [ObjMapImagesNil])

lemma endGroupObjectgroup_images {ctx : Context} {p c : Obj} {ctx' : Context} {p' : Obj}
    (h : endGroupObjectgroup ctx p c = .ok (ctx', p')) (hp : ObjMapImagesNil p) :
    ObjMapImagesNil p' := by
  unfold endGroupObjectgroup at h
  repeat' split at h
  all_goals try obtain ⟨gv, hgv, h⟩ := except_bind_eq_ok.mp h
  all_goals try split at h
  all_goals
    first
      | exact Except.noConfusion h
      | (injection h with h1
         injection h1 with hctx ho
         subst ho
         simp_all [ObjMapImagesNil])

lemma endImagelayerImage_images {ctx : Context} {p c : Obj} {ctx' : Context} {p' : Obj}
    (h : endImagelayerImage ctx p c = .ok (ctx', p')) (hp : ObjMapImagesNil p) :
    ObjMapImagesNil p' := by
  unfold endImagelayerImage at h
  repeat' split at h
  all_goals try obtain ⟨gv, hgv, h⟩ := except_bind_eq_ok.mp h
  all_goals try split at h
  all_goals
    first
      | exact Except.noConfusion h
      | (injection h with h1
         injection h1 with hctx ho
         subst ho
         simp_all [ObjMapImagesNil])

lemma endLayerData_images {bd : Boundary} {ctx : Context} {p c : Obj} {ctx' : Context} {p' : Obj}
    (h : endLayerData bd ctx p c = .ok (ctx', p')) (hp : ObjMapImagesNil p) :
    ObjMapImagesNil p' := by
  unfold endLayerData at h
  repeat' split at h
  all_goals try obtain ⟨gv, hgv, h⟩ := except_bind_eq_ok.mp h
  all_goals try split at h
  all_goals
    first
      | exact Except.noConfusion h
      | (injection h with h1
         injection h1 with hctx ho
         subst ho
         simp_all [ObjMapImagesNil])

lemma endLayerProperties_images {ctx : Context} {p c : Obj} {ctx' : Context} {p' : Obj}
    (h : endLayerProperties ctx p c = .ok (ctx', p')) (hp : ObjMapImagesNil p) :
    ObjMapImagesNil p' := by
  unfold endLayerProperties at h
  repeat' split at h
  all_goals try obtain ⟨gv, hgv, h⟩ := except_bind_eq_ok.mp h
  all_goals try split at h
  all_goals
    first
      | exact Except.noConfusion h
      | (injection h with h1
         injection h1 with hctx ho
         subst ho
         simp_all [ObjMapImagesNil])

lemma endMapGroup_images {ctx : Context} {p c : Obj} {ctx' : Context} {p' : Obj}
    (h : endMapGroup ctx p c = .ok (ctx', p')) (hp : ObjMapImagesNil p) :
    ObjMapImagesNil p' := by
  unfold endMapGroup at h
  repeat' split at h
  all_goals try obtain ⟨gv, hgv, h⟩ := except_bind_eq_ok.mp h
  all_goals try split at h
  all_goals
    first
      | exact Except.noConfusion h
      | (injection h with h1
         injection h1 with hctx ho
         subst ho
         simp_all [ObjMapImagesNil])

lemma endMapImagelayer_images {ctx : Context} {p c : Obj} {ctx' : Context} {p' : Obj}
    (h : endMapImagelayer ctx p c = .ok (ctx', p')) (hp : ObjMapImagesNil p) :
    ObjMapImagesNil p' := by
  unfold endMapImagelayer at h
  repeat' split at h
  all_goals try obtain ⟨gv, hgv, h⟩ := except_bind_eq_ok.mp h
  all_goals try split at h
  all_goals
    first
      | exact Except.noConfusion h
      | (injection h with h1
         injection h1 with hctx ho
         subst ho
         simp_all [ObjMapImagesNil])

lemma endMapLayer_images {ctx : Context} {p c : Obj} {ctx' : Context} {p' : Obj}
    (h : endMapLayer ctx p c = .ok (ctx', p')) (hp : ObjMapImagesNil p) :
    ObjMapImagesNil p' := by
  unfold endMapLayer at h
  repeat' split at h
  all_goals try obtain ⟨gv, hgv, h⟩ := except_bind_eq_ok.mp h
  all_goals try split at h
  all_goals
    first
      | exact Except.noConfusion h
      | (injection h with h1
         injection h1 with hctx ho
         subst ho
         simp_all [ObjMapImagesNil])

lemma endMapObjectgroup_images {ctx : Context} {p c : Obj} {ctx' : Context} {p' : Obj}
    (h : endMapObjectgroup ctx p c = .ok (ctx', p')) (hp : ObjMapImagesNil p) :
    ObjMapImagesNil p' := by
  unfold endMapObjectgroup at h
  repeat' split at h
  all_goals try obtain ⟨gv, hgv, h⟩ := except_bind_eq_ok.mp h
  all_goals try split at h
  all_goals
    first
      | exact Except.noConfusion h
      | (injection h with h1
         injection h1 with hctx ho
         subst ho
         simp_all [ObjMapImagesNil])

lemma endMapProperties_images {ctx : Context} {p c : Obj} {ctx' : Context} {p' : Obj}
    (h : endMapProperties ctx p c = .ok (ctx', p')) (hp : ObjMapImagesNil p) :
    ObjMapImagesNil p' := by
  unfold endMapProperties at h
  repeat' split at h
  all_goals try obtain ⟨gv, hgv, h⟩ := except_bind_eq_ok.mp h
  all_goals try split at h
  all_goals
    first
      | exact Except.noConfusion h
      | (injection h with h1
         injection h1 with hctx ho
         subst ho
         simp_all [ObjMapImagesNil])

lemma endMapTileset_images {ctx : Context} {p c : Obj} {ctx' : Context} {p' : Obj}
    (h : endMapTileset ctx p c = .ok (ctx', p')) (hp : ObjMapImagesNil p) :
    ObjMapImagesNil p' := by
  unfold endMapTileset at h
  repeat' split at h
  all_goals try obtain ⟨gv, hgv, h⟩ := except_bind_eq_ok.mp h
  all_goals try split at h
  all_goals
    first
      | exact Except.noConfusion h
      | (injection h with h1
         injection h1 with hctx ho
         subst ho
         simp_all [ObjMapImagesNil])

lemma endObjectEllipse_images {ctx : Context} {p c : Obj} {ctx' : Context} {p' : Obj}
    (h : endObjectEllipse ctx p c = .ok (ctx', p')) (hp : ObjMapImagesNil p) :
    ObjMapImagesNil p' := by
  unfold endObjectEllipse at h
  repeat' split at h
  all_goals try obtain ⟨gv, hgv, h⟩ := except_bind_eq_ok.mp h
  all_goals try split at h
  all_goals
    first
      | exact Except.noConfusion h
      | (injection h with h1
         injection h1 with hctx ho
         subst ho
         simp_all [ObjMapImagesNil])

lemma endObjectPoint_images {ctx : Context} {p c : Obj} {ctx' : Context} {p' : Obj}
    (h : endObjectPoint ctx p c = .ok (ctx', p')) (hp : ObjMapImagesNil p) :
    ObjMapImagesNil p' := by
  unfold endObjectPoint at h
  repeat' split at h
  all_goals try obtain ⟨gv, hgv, h⟩ := except_bind_eq_ok.mp h
  all_goals try split at h
  all_goals
    first
      | exact Except.noConfusion h
      | (injection h with h1
         injection h1 with hctx ho
         subst ho
         simp_all [ObjMapImagesNil])

lemma endObjectProperties_images {ctx : Context} {p c : Obj} {ctx' : Context} {p' : Obj}
    (h : endObjectProperties ctx p c = .ok (ctx', p')) (hp : ObjMapImagesNil p) :
    ObjMapImagesNil p' := by
  unfold endObjectProperties at h
  repeat' split at h
  all_goals try obtain ⟨gv, hgv, h⟩ := except_bind_eq_ok.mp h
  all_goals try split at h
  all_goals
    first
      | exact Except.noConfusion h
      | (injection h with h1
         injection h1 with hctx ho
         subst ho
         simp_all [ObjMapImagesNil])

lemma endObjectPolygon_images {ctx : Context} {p c : Obj} {ctx' : Context} {p' : Obj}
    (h : endObjectPolygon ctx p c = .ok (ctx', p')) (hp : ObjMapImagesNil p) :
    ObjMapImagesNil p' := by
  unfold endObjectPolygon at h
  repeat' split at h
  all_goals try obtain ⟨gv, hgv, h⟩ := except_bind_eq_ok.mp h
  all_goals try split at h
  all_goals
    first
      | exact Except.noConfusion h
      | (injection h with h1
         injection h1 with hctx ho
         subst ho
         simp_all [ObjMapImagesNil])

lemma endObjectPolyline_images {ctx : Context} {p c : Obj} {ctx' : Context} {p' : Obj}
    (h : endObjectPolyline ctx p c = .ok (ctx', p')) (hp : ObjMapImagesNil p) :
    ObjMapImagesNil p' := by
  unfold endObjectPolyline at h
  repeat' split at h
  all_goals try obtain ⟨gv, hgv, h⟩ := except_bind_eq_ok.mp h
  all_goals try split at h
  all_goals
    first
      | exact Except.noConfusion h
      | (injection h with h1
         injection h1 with hctx ho
         subst ho
         simp_all [ObjMapImagesNil])

lemma endObjectgroupObject_images {ctx : Context} {p c : Obj} {ctx' : Context} {p' : Obj}
    (h : endObjectgroupObject ctx p c = .ok (ctx', p')) (hp : ObjMapImagesNil p) :
    ObjMapImagesNil p' := by
  unfold endObjectgroupObject at h
  repeat' split at h
  all_goals try obtain ⟨gv, hgv, h⟩ := except_bind_eq_ok.mp h
  all_goals try split at h
  all_goals
    first
      | exact Except.noConfusion h
      | (injection h with h1
         injection h1 with hctx ho
         subst ho
         simp_all [ObjMapImagesNil])

lemma endObjectText_images {ctx : Context} {p c : Obj} {ctx' : Context} {p' : Obj}
    (h : endObjectText ctx p c = .ok (ctx', p')) (hp : ObjMapImagesNil p) :
    ObjMapImagesNil p' := by
  unfold endObjectText at h
  repeat' split at h
  all_goals try obtain ⟨gv, hgv, h⟩ := except_bind_eq_ok.mp h
  all_goals try split at h
  all_goals
    first
      | exact Except.noConfusion h
      | (injection h with h1
         injection h1 with hctx ho
         subst ho
         simp_all [ObjMapImagesNil])

lemma endPropertiesProperty_images {ctx : Context} {p c : Obj} {ctx' : Context} {p' : Obj}
    (h : endPropertiesProperty ctx p c = .ok (ctx', p')) (hp : ObjMapImagesNil p) :
    ObjMapImagesNil p' := by
  unfold endPropertiesProperty at h
  repeat' split at h
  all_goals try obtain ⟨gv, hgv, h⟩ := except_bind_eq_ok.mp h
  all_goals try split at h
  all_goals
    first
      | exact Except.noConfusion h
      | (injection h with h1
         injection h1 with hctx ho
         subst ho
         simp_all [ObjMapImagesNil])

lemma endTilesetGrid_images {ctx : Context} {p c : Obj} {ctx' : Context} {p' : Obj}
    (h : endTilesetGrid ctx p c = .ok (ctx', p')) (hp : ObjMapImagesNil p) :
    ObjMapImagesNil p' := by
  unfold endTilesetGrid at h
  repeat' split at h
  all_goals try obtain ⟨gv, hgv, h⟩ := except_bind_eq_ok.mp h
  all_goals try split at h
  all_goals
    first
      | exact Except.noConfusion h
      | (injection h with h1
         injection h1 with hctx ho
         subst ho
         simp_all [ObjMapImagesNil])

lemma endTilesetImage_images {ctx : Context} {p c : Obj} {ctx' : Context} {p' : Obj}
    (h : endTilesetImage ctx p c = .ok (ctx', p')) (hp : ObjMapImagesNil p) :
    ObjMapImagesNil p' := by
  unfold endTilesetImage at h
  repeat' split at h
  all_goals try obtain ⟨gv, hgv, h⟩ := except_bind_eq_ok.mp h
  all_goals try split at h
  all_goals
    first
      | exact Except.noConfusion h
      | (injection h with h1
         injection h1 with hctx ho
         subst ho
         simp_all [ObjMapImagesNil])

lemma endTilesetProperties_images {ctx : Context} {p c : Obj} {ctx' : Context} {p' : Obj}
    (h : endTilesetProperties ctx p c = .ok (ctx', p')) (hp : ObjMapImagesNil p) :
    ObjMapImagesNil p' := by
  unfold endTilesetProperties at h
  repeat' split at h
  all_goals try obtain ⟨gv, hgv, h⟩ := except_bind_eq_ok.mp h
  all_goals try split at h
  all_goals
    first
      | exact Except.noConfusion h
      | (injection h with h1
         injection h1 with hctx ho
         subst ho
         simp_all [ObjMapImagesNil])

lemma endTileProperties_images {ctx : Context} {p c : Obj} {ctx' : Context} {p' : Obj}
    (h : endTileProperties ctx p c = .ok (ctx', p')) (hp : ObjMapImagesNil p) :
    ObjMapImagesNil p' := by
  unfold endTileProperties at h
  repeat' split at h
  all_goals try obtain ⟨gv, hgv, h⟩ := except_bind_eq_ok.mp h
  all_goals try split at h
  all_goals
    first
      | exact Except.noConfusion h
      | (injection h with h1
         injection h1 with hctx ho
         subst ho
         simp_all [ObjMapImagesNil])

lemma endTileImage_images {ctx : Context} {p c : Obj} {ctx' : Context} {p' : Obj}
    (h : endTileImage ctx p c = .ok (ctx', p')) (hp : ObjMapImagesNil p) :
    ObjMapImagesNil p' := by
  unfold endTileImage at h
  repeat' split at h
  all_goals try obtain ⟨gv, hgv, h⟩ := except_bind_eq_ok.mp h
  all_goals try split at h
  all_goals
    first
      | exact Except.noConfusion h
      | (injection h with h1
         injection h1 with hctx ho
         subst ho
         simp_all [ObjMapImagesNil])

lemma endTilesetTile_images {ctx : Context} {p c : Obj} {ctx' : Context} {p' : Obj}
    (h : endTilesetTile ctx p c = .ok (ctx', p')) (hp : ObjMapImagesNil p) :
    ObjMapImagesNil p' := by
  unfold endTilesetTile at h
  repeat' split at h
  all_goals try obtain ⟨gv, hgv, h⟩ := except_bind_eq_ok.mp h
  all_goals try split at h
  all_goals
    first
      | exact Except.noConfusion h
      | (injection h with h1
         injection h1 with hctx ho
         subst ho
         simp_all [ObjMapImagesNil])

lemma reduceEnd_images {bd : Boundary} {ctx : Context} {path : String} {p c : Obj}
    {ctx' : Context} {p' : Obj} (h : reduceEnd bd ctx path p c = .ok (ctx', p'))
    (hp : ObjMapImagesNil p) : ObjMapImagesNil p' := by
  unfold reduceEnd at h
  by_cases e0 : (path == "Data.Tile") = true
  · rw [if_pos e0] at h
    unfold endDataTile at h
    exact Except.noConfusion h
  rw [if_neg e0] at h
  by_cases e1 : (path == "Group.Layer") = true
  · rw [if_pos e1] at h
    exact endGroupLayer_images h hp
  rw [if_neg e1] at h
  by_cases e2 : (path == "Group.Objectgroup") = true
  · rw [if_pos e2] at h
    exact endGroupObjectgroup_images h hp
  rw [if_neg e2] at h
  by_cases e3 : (path == "Imagelayer.Image") = true
  · rw [if_pos e3] at h
    exact endImagelayerImage_images h hp
  rw [if_neg e3] at h
  by_cases e4 : (path == "Layer.Data") = true
  · rw [if_pos e4] at h
    exact endLayerData_images h hp
  rw [if_neg e4] at h
  by_cases e5 : (path == "Layer.Properties") = true
  · rw [if_pos e5] at h
    exact endLayerProperties_images h hp
  rw [if_neg e5] at h
  by_cases e6 : (path == "Map.Group") = true
  · rw [if_pos e6] at h
    exact endMapGroup_images h hp
  rw [if_neg e6] at h
  by_cases e7 : (path == "Map.Imagelayer") = true
  · rw [if_pos e7] at h
    exact endMapImagelayer_images h hp
  rw [if_neg e7] at h
  by_cases e8 : (path == "Map.Layer") = true
  · rw [if_pos e8] at h
    exact endMapLayer_images h hp
  rw [if_neg e8] at h
  by_cases e9 : (path == "Map.Objectgroup") = true
  · rw [if_pos e9] at h
    exact endMapObjectgroup_images h hp
  rw [if_neg e9] at h
  by_cases e10 : (path == "Map.Properties") = true
  · rw [if_pos e10] at h
    exact endMapProperties_images h hp
  rw [if_neg e10] at h
  by_cases e11 : (path == "Map.Tileset") = true
  · rw [if_pos e11] at h
    exact endMapTileset_images h hp
  rw [if_neg e11] at h
  by_cases e12 : (path == "Object.Ellipse") = true
  · rw [if_pos e12] at h
    exact endObjectEllipse_images h hp
  rw [if_neg e12] at h
  by_cases e13 : (path == "Object.Point") = true
  · rw [if_pos e13] at h
    exact endObjectPoint_images h hp
  rw [if_neg e13] at h
  by_cases e14 : (path == "Object.Properties") = true
  · rw [if_pos e14] at h
    exact endObjectProperties_images h hp
  rw [if_neg e14] at h
  by_cases e15 : (path == "Object.Polygon") = true
  · rw [if_pos e15] at h
    exact endObjectPolygon_images h hp
  rw [if_neg e15] at h
  by_cases e16 : (path == "Object.Polyline") = true
  · rw [if_pos e16] at h
    exact endObjectPolyline_images h hp
  rw [if_neg e16] at h
  by_cases e17 : (path == "Objectgroup.Object") = true
  · rw [if_pos e17] at h
    exact endObjectgroupObject_images h hp
  rw [if_neg e17] at h
  by_cases e18 : (path == "Object.Text") = true
  · rw [if_pos e18] at h
    exact endObjectText_images h hp
  rw [if_neg e18] at h
  by_cases e19 : (path == "Properties.Property") = true
  · rw [if_pos e19] at h
    exact endPropertiesProperty_images h hp
  rw [if_neg e19] at h
  by_cases e20 : (path == "Tileset.Grid") = true
  · rw [if_pos e20] at h
    exact endTilesetGrid_images h hp
  rw [if_neg e20] at h
  by_cases e21 : (path == "Tileset.Image") = true
  · rw [if_pos e21] at h
    exact endTilesetImage_images h hp
  rw [if_neg e21] at h
  by_cases e22 : (path == "Tileset.Properties") = true
  · rw [if_pos e22] at h
    exact endTilesetProperties_images h hp
  rw [if_neg e22] at h
  by_cases e23 : (path == "Tile.Properties") = true
  · rw [if_pos e23] at h
    exact endTileProperties_images h hp
  rw [if_neg e23] at h
  by_cases e24 : (path == "Tile.Image") = true
  · rw [if_pos e24] at h
    exact endTileImage_images h hp
  rw [if_neg e24] at h
  by_cases e25 : (path == "Tileset.Tile") = true
  · rw [if_pos e25] at h
    exact endTilesetTile_images h hp
  rw [if_neg e25] at h
  exact Except.noConfusion h

lemma pstep_images (fs : FS) (bd : Boundary) :
    ∀ (fuel : Nat) (req : PReq), ReqInv req →
      ∀ (ctx' : Context) (o : Obj), pstep fs bd fuel req = .ok (ctx', o) →
        ObjMapImagesNil o := by
  intro fuel
  induction fuel with
  | zero =>
    intro req _ ctx' o h
    exact Except.noConfusion h
  | succ n ih =>
    intro req hreq ctx' o h
    cases req with
    | file ctx path =>
      simp only [pstep] at h
      split at h
      · exact Except.noConfusion h
      · obtain ⟨⟨ctx2, obj⟩, h1, h2⟩ := except_bind_eq_ok.mp h
        refine reduceRoot_images h2 (ih _ ?_ _ _ h1)
        trivial
    | elem ctx x =>
      cases x with
      | elem tag attrib text children =>
        simp only [pstep] at h
        obtain ⟨⟨ctx2, obj⟩, h1, h2⟩ := except_bind_eq_ok.mp h
        have hobj : ObjMapImagesNil obj := by
          refine ih _ ?_ _ _ h1
          trivial
        exact ih (.children ctx2 (pyTitle tag) obj children)
          (show ObjMapImagesNil obj from hobj) _ _ h2
    | children ctx pname pobj cs =>
      cases cs with
      | nil =>
        simp only [pstep] at h
        injection h with h1
        injection h1 with hctx ho
        subst ho
        exact hreq
      | cons c rest =>
        simp only [pstep] at h
        obtain ⟨⟨ctx2, cobj⟩, h1, h⟩ := except_bind_eq_ok.mp h
        obtain ⟨⟨ctx3, pobj2⟩, h2, h⟩ := except_bind_eq_ok.mp h
        have hp2 : ObjMapImagesNil pobj2 :=
          reduceEnd_images h2 (show ObjMapImagesNil pobj from hreq)
        exact ih (.children ctx3 pname pobj2 rest)
          (show ObjMapImagesNil pobj2 from hp2) _ _ h
    | startTag ctx name attrib text =>
      simp only [pstep] at h
      by_cases e0 : (name == "Data") = true
      · rw [if_pos e0] at h
        obtain ⟨o0, hb, hf⟩ := except_map_eq_ok.mp h
        injection hf with hctx ho
        subst ho
        simp only [buildData] at hb
        repeat'
          first
            | (obtain ⟨_, _, hb⟩ := except_bind_eq_ok.mp hb)
            | split at hb
        all_goals first
          | exact Except.noConfusion hb
          | (injection hb with hb2
             rw [← hb2]
             simp [ObjMapImagesNil])
      rw [if_neg e0] at h
      by_cases e1 : (name == "Ellipse") = true
      · rw [if_pos e1] at h
        injection h with h1
        injection h1 with hctx ho
        subst ho
        simp [ObjMapImagesNil]
      rw [if_neg e1] at h
      by_cases e2 : (name == "Grid") = true
      · rw [if_pos e2] at h
        obtain ⟨o0, hb, hf⟩ := except_map_eq_ok.mp h
        injection hf with hctx ho
        subst ho
        simp only [buildGrid] at hb
        repeat'
          first
            | (obtain ⟨_, _, hb⟩ := except_bind_eq_ok.mp hb)
            | split at hb
        all_goals first
          | exact Except.noConfusion hb
          | (injection hb with hb2
             rw [← hb2]
             simp [ObjMapImagesNil])
      rw [if_neg e2] at h
      by_cases e3 : (name == "Group") = true
      · rw [if_pos e3] at h
        obtain ⟨o0, hb, hf⟩ := except_map_eq_ok.mp h
        injection hf with hctx ho
        subst ho
        simp only [buildGroup] at hb
        repeat'
          first
            | (obtain ⟨_, _, hb⟩ := except_bind_eq_ok.mp hb)
            | split at hb
        all_goals first
          | exact Except.noConfusion hb
          | (injection hb with hb2
             rw [← hb2]
             simp [ObjMapImagesNil])
      rw [if_neg e3] at h
      by_cases e4 : (name == "Image") = true
      · rw [if_pos e4] at h
        obtain ⟨o0, hb, hf⟩ := except_map_eq_ok.mp h
        injection hf with hctx ho
        subst ho
        simp only [buildImage] at hb
        repeat'
          first
            | (obtain ⟨_, _, hb⟩ := except_bind_eq_ok.mp hb)
            | split at hb
        all_goals first
          | exact Except.noConfusion hb
          | (injection hb with hb2
             rw [← hb2]
             simp [ObjMapImagesNil])
      rw [if_neg e4] at h
      by_cases e5 : (name == "Imagelayer") = true
      · rw [if_pos e5] at h
        obtain ⟨o0, hb, hf⟩ := except_map_eq_ok.mp h
        injection hf with hctx ho
        subst ho
        simp only [buildImagelayer] at hb
        repeat'
          first
            | (obtain ⟨_, _, hb⟩ := except_bind_eq_ok.mp hb)
            | split at hb
        all_goals first
          | exact Except.noConfusion hb
          | (injection hb with hb2
             rw [← hb2]
             simp [ObjMapImagesNil])
      rw [if_neg e5] at h
      by_cases e6 : (name == "Layer") = true
      · rw [if_pos e6] at h
        obtain ⟨o0, hb, hf⟩ := except_map_eq_ok.mp h
        injection hf with hctx ho
        subst ho
        simp only [buildLayer] at hb
        repeat'
          first
            | (obtain ⟨_, _, hb⟩ := except_bind_eq_ok.mp hb)
            | split at hb
        all_goals first
          | exact Except.noConfusion hb
          | (injection hb with hb2
             rw [← hb2]
             simp [ObjMapImagesNil])
      rw [if_neg e6] at h
      by_cases e7 : (name == "Map") = true
      · rw [if_pos e7] at h
        obtain ⟨o0, hb, hf⟩ := except_map_eq_ok.mp h
        injection hf with hctx ho
        subst ho
        simp only [buildMap] at hb
        repeat'
          first
            | (obtain ⟨_, _, hb⟩ := except_bind_eq_ok.mp hb)
            | split at hb
        all_goals first
          | exact Except.noConfusion hb
          | (injection hb with hb2
             rw [← hb2]
             simp [ObjMapImagesNil])
      rw [if_neg e7] at h
      by_cases e8 : (name == "Object") = true
      · rw [if_pos e8] at h
        obtain ⟨o0, hb, hf⟩ := except_map_eq_ok.mp h
        injection hf with hctx ho
        subst ho
        simp only [buildObject] at hb
        repeat'
          first
            | (obtain ⟨_, _, hb⟩ := except_bind_eq_ok.mp hb)
            | split at hb
        all_goals first
          | exact Except.noConfusion hb
          | (injection hb with hb2
             rw [← hb2]
             simp [ObjMapImagesNil])
      rw [if_neg e8] at h
      by_cases e9 : (name == "Objectgroup") = true
      · rw [if_pos e9] at h
        obtain ⟨o0, hb, hf⟩ := except_map_eq_ok.mp h
        injection hf with hctx ho
        subst ho
        simp only [buildObjectgroup] at hb
        repeat'
          first
            | (obtain ⟨_, _, hb⟩ := except_bind_eq_ok.mp hb)
            | split at hb
        all_goals first
          | exact Except.noConfusion hb
          | (injection hb with hb2
             rw [← hb2]
             simp [ObjMapImagesNil])
      rw [if_neg e9] at h
      by_cases e10 : (name == "Point") = true
      · rw [if_pos e10] at h
        obtain ⟨o0, hb, hf⟩ := except_map_eq_ok.mp h
        injection hf with hctx ho
        subst ho
        simp only [buildPoint] at hb
        repeat'
          first
            | (obtain ⟨_, _, hb⟩ := except_bind_eq_ok.mp hb)
            | split at hb
        all_goals first
          | exact Except.noConfusion hb
          | (injection hb with hb2
             rw [← hb2]
             simp [ObjMapImagesNil])
      rw [if_neg e10] at h
      by_cases e11 : (name == "Polygon") = true
      · rw [if_pos e11] at h
        obtain ⟨o0, hb, hf⟩ := except_map_eq_ok.mp h
        injection hf with hctx ho
        subst ho
        simp only [buildPolygon] at hb
        repeat'
          first
            | (obtain ⟨_, _, hb⟩ := except_bind_eq_ok.mp hb)
            | split at hb
        all_goals first
          | exact Except.noConfusion hb
          | (injection hb with hb2
             rw [← hb2]
             simp [ObjMapImagesNil])
      rw [if_neg e11] at h
      by_cases e12 : (name == "Polyline") = true
      · rw [if_pos e12] at h
        obtain ⟨o0, hb, hf⟩ := except_map_eq_ok.mp h
        injection hf with hctx ho
        subst ho
        simp only [buildPolyline] at hb
        repeat'
          first
            | (obtain ⟨_, _, hb⟩ := except_bind_eq_ok.mp hb)
            | split at hb
        all_goals first
          | exact Except.noConfusion hb
          | (injection hb with hb2
             rw [← hb2]
             simp [ObjMapImagesNil])
      rw [if_neg e12] at h
      by_cases e13 : (name == "Properties") = true
      · rw [if_pos e13] at h
        injection h with h1
        injection h1 with hctx ho
        subst ho
        simp [ObjMapImagesNil]
      rw [if_neg e13] at h
      by_cases e14 : (name == "Property") = true
      · rw [if_pos e14] at h
        obtain ⟨o0, hb, hf⟩ := except_map_eq_ok.mp h
        injection hf with hctx ho
        subst ho
        simp only [buildProperty] at hb
        repeat'
          first
            | (obtain ⟨_, _, hb⟩ := except_bind_eq_ok.mp hb)
            | split at hb
        all_goals first
          | exact Except.noConfusion hb
          | (injection hb with hb2
             rw [← hb2]
             simp [ObjMapImagesNil])
      rw [if_neg e14] at h
      by_cases e15 : (name == "Tile") = true
      · rw [if_pos e15] at h
        obtain ⟨o0, hb, hf⟩ := except_map_eq_ok.mp h
        injection hf with hctx ho
        subst ho
        simp only [buildTile] at hb
        repeat'
          first
            | (obtain ⟨_, _, hb⟩ := except_bind_eq_ok.mp hb)
            | split at hb
        all_goals first
          | exact Except.noConfusion hb
          | (injection hb with hb2
             rw [← hb2]
             simp [ObjMapImagesNil])
      rw [if_neg e15] at h
      by_cases e16 : (name == "Text") = true
      · rw [if_pos e16] at h
        obtain ⟨o0, hb, hf⟩ := except_map_eq_ok.mp h
        injection hf with hctx ho
        subst ho
        simp only [buildText] at hb
        repeat'
          first
            | (obtain ⟨_, _, hb⟩ := except_bind_eq_ok.mp hb)
            | split at hb
        all_goals first
          | exact Except.noConfusion hb
          | (injection hb with hb2
             rw [← hb2]
             simp [ObjMapImagesNil])
      rw [if_neg e16] at h
      by_cases e17 : (name == "Tileset") = true
      · rw [if_pos e17] at h
        split at h
        · exact Except.noConfusion h
        · repeat' split at h
          all_goals
            first
              | (refine ih _ ?_ _ _ h
                 trivial)
              | (obtain ⟨o0, hb, hf⟩ := except_map_eq_ok.mp h
                 injection hf with hctx ho
                 subst ho
                 simp only [buildTileset] at hb
                 repeat'
                   first
                     | (obtain ⟨_, _, hb⟩ := except_bind_eq_ok.mp hb)
                     | split at hb
                 all_goals first
                   | exact Except.noConfusion hb
                   | (injection hb with hb2
                      rw [← hb2]
                      simp [ObjMapImagesNil])
                )
      rw [if_neg e17] at h
      exact Except.noConfusion h

/-- C7: for every loaded Map and every gid argument, `get_tile_image_by_gid`
returns the entry at index gid of the map's image table when gid is a valid
in-range index, fails with the "GIDs must be expressed as a number"
`TypeError` (InvalidInput) when gid is not numeric, and fails with the "GID
not found" `ValueError` (NotFound) when gid is out of range of the table —
including every negative gid, since a loaded map's image table is empty (the
parser never populates `Map.images`). -/
theorem get_tile_image_by_gid_spec (fs : FS) (bd : Boundary) (fuel : Nat) (path : String)
    (ctx : Context) (m : Map) (hload : load_tmx fs bd fuel path = .ok (ctx, .map m)) :
    (∀ (g : Int) (img : ImgVal), 0 ≤ g → m.images[g.toNat]? = some img →
      m.get_tile_image_by_gid (.int g) = .ok img) ∧
    (∀ s : String, m.get_tile_image_by_gid (.str s) = .error (.gidTypeError (.str s))) ∧
    (∀ g : Int, g < 0 ∨ (m.images.length : Int) ≤ g →
      m.get_tile_image_by_gid (.int g) = .error (.gidNotFound g)) := by
  have himg : m.images = [] := by
    have hst : pstep fs bd fuel
        (.file { path := some path, folder := dirname path, invert_y := true,
                 tiles := [(0, Option.none)], firstgid := 0 } path) = .ok (ctx, .map m) :=
      hload
    have := pstep_images fs bd fuel
      (.file { path := some path, folder := dirname path, invert_y := true,
               tiles := [(0, Option.none)], firstgid := 0 } path)
      (by trivial) ctx (.map m) hst
    simpa [ObjMapImagesNil] using this
  refine ⟨?_, ?_, ?_⟩
  · intro g img hg hidx
    simp [Map.get_tile_image_by_gid, pyIndex?, hg, hidx]
  · intro s
    rfl
  · intro g hrange
    have hnone : pyIndex? m.images g = Option.none := by
      rw [himg]
      simp [pyIndex?]
    simp [Map.get_tile_image_by_gid, hnone]

/-- Witness for `get_tile_image_by_gid_spec` on the loaded `m1.tmx`: a
string gid is InvalidInput and gid 1 (its image table is empty) is
NotFound. -/
theorem get_tile_image_by_gid_spec_witness :
    m1map.get_tile_image_by_gid (.str "x") = .error (.gidTypeError (.str "x")) ∧
      m1map.get_tile_image_by_gid (.int 1) = .error (.gidNotFound 1) :=
  ⟨(get_tile_image_by_gid_spec tmxFS1 noDecompression 50 "m1.tmx" m1ctx m1map rfl).2.1 "x",
   (get_tile_image_by_gid_spec tmxFS1 noDecompression 50 "m1.tmx" m1ctx m1map rfl).2.2 1
     (Or.inr (by decide))⟩

end Pytmx
